import Mathlib

/-!
Verification of the paymentTracker statement-ingestion and recurrence
pipeline.

This file is a shallow embedding of the Python source under
`backend/app/services` (`recurrence.py`, `csv_parser.py`, `pdf_parser.py`,
`transaction_analyzer.py`, `claude_service.py`).  Python `date` values are
modelled as proleptic-Gregorian year/month/day triples with Python's
`toordinal` arithmetic, `Decimal` amounts as exact rationals, and every
regular-expression operation the source performs is translated, pattern by
pattern, into a dedicated executable matching function whose doc comment
quotes the original pattern.
-/

namespace PaymentTracker

/-! ## ASCII character classes (Python `\d`, `\s`, `\w` on the ASCII text
the source processes) -/

/-- Regex `\d` (ASCII). -/
def isDigit (c : Char) : Bool := '0' ≤ c && c ≤ '9'

/-- Regex `\s` (ASCII): space, tab, newline, carriage return, vertical tab,
form feed.  Also the set stripped by Python `str.strip()` on ASCII text. -/
def isSpace (c : Char) : Bool :=
  c = ' ' || c = '\t' || c = '\n' || c = '\r' || c = '\x0b' || c = '\x0c'

/-- Regex `\w` (ASCII): letters, digits, underscore. -/
def isWord (c : Char) : Bool :=
  ('a' ≤ c && c ≤ 'z') || ('A' ≤ c && c ≤ 'Z') || isDigit c || c = '_'

/-- ASCII letter test (`str.isalpha` on ASCII). -/
def isAlpha (c : Char) : Bool :=
  ('a' ≤ c && c ≤ 'z') || ('A' ≤ c && c ≤ 'Z')

/-- ASCII lower-casing of one character (Python `str.lower` on ASCII). -/
def lowerChar (c : Char) : Char :=
  if 'A' ≤ c && c ≤ 'Z' then Char.ofNat (c.toNat + 32) else c

/-- ASCII upper-casing of one character. -/
def upperChar (c : Char) : Char :=
  if 'a' ≤ c && c ≤ 'z' then Char.ofNat (c.toNat - 32) else c

/-- Python `str.lower` (ASCII). -/
def pyLower (s : List Char) : List Char := s.map lowerChar

/-- Python `str.strip()` (ASCII whitespace). -/
def pyStrip (s : List Char) : List Char :=
  ((s.dropWhile isSpace).reverse.dropWhile isSpace).reverse

/-- Numeric value of a digit character. -/
def digitVal (c : Char) : Nat := c.toNat - '0'.toNat

/-- Value of a digit string, most significant first. -/
def natOfDigits (ds : List Char) : Nat :=
  ds.foldl (fun a c => 10 * a + digitVal c) 0

/-! ## Python `datetime.date` -/

/-- Python `datetime.date`: a proleptic-Gregorian year/month/day triple.
Real Python dates always have `1 ≤ year ≤ 9999`, `1 ≤ month ≤ 12` and a
valid day; the structure itself does not enforce this, theorems add the
bounds where they matter. -/
structure PyDate where
  year : Nat
  month : Nat
  day : Nat
deriving DecidableEq, Repr, Inhabited

/-- `calendar.isleap`. -/
def isLeapYear (y : Nat) : Bool :=
  (y % 4 == 0 && y % 100 != 0) || y % 400 == 0

/-- `calendar.monthrange(year, month)[1]`, the number of days in the month.
Months outside 1..12 (impossible for real `date` values) map to 0. -/
def daysInMonth (y m : Nat) : Nat :=
  match m with
  | 1 => 31 | 2 => if isLeapYear y then 29 else 28
  | 3 => 31 | 4 => 30 | 5 => 31 | 6 => 30 | 7 => 31 | 8 => 31
  | 9 => 30 | 10 => 31 | 11 => 30 | 12 => 31
  | _ => 0

/-- Days in year `y` strictly before month `m`
(CPython `datetime._days_before_month`). -/
def daysBeforeMonth (y m : Nat) : Nat :=
  let f := if isLeapYear y then 1 else 0
  match m with
  | 1 => 0 | 2 => 31 | 3 => 59 + f | 4 => 90 + f | 5 => 120 + f
  | 6 => 151 + f | 7 => 181 + f | 8 => 212 + f | 9 => 243 + f
  | 10 => 273 + f | 11 => 304 + f | 12 => 334 + f
  | _ => 0

/-- Days before January 1 of year `y`
(CPython `datetime._days_before_year`). -/
def daysBeforeYear (y : Nat) : Nat :=
  365 * (y - 1) + (y - 1) / 4 + (y - 1) / 400 - (y - 1) / 100

/-- Python `date.toordinal()`: day count with `date(1,1,1).toordinal() = 1`. -/
def toordinal (d : PyDate) : Nat :=
  daysBeforeYear d.year + daysBeforeMonth d.year d.month + d.day

/-- Python `(a - b).days` for two dates. -/
def dateDiffDays (a b : PyDate) : Int :=
  (toordinal a : Int) - (toordinal b : Int)

/-- Python `date.weekday()`: Monday = 0 .. Sunday = 6. -/
def pyWeekday (d : PyDate) : Nat := (toordinal d + 6) % 7

/-- Python `date` ordering (lexicographic on year, month, day). -/
def dateLt (a b : PyDate) : Bool :=
  a.year < b.year ||
    (a.year = b.year &&
      (a.month < b.month || (a.month = b.month && a.day < b.day)))

/-- Non-strict Python `date` ordering. -/
def dateLe (a b : PyDate) : Bool := dateLt a b || a = b

/-! ## Generic Python string / list operations -/

/-- Abbreviation turning a string literal into the character list the
embedding works on. -/
def cl (s : String) : List Char := s.toList

/-- Python `str.replace(c, d)` for single characters. -/
def pyReplaceChar (c d : Char) (l : List Char) : List Char :=
  l.map (fun x => if x = c then d else x)

/-- Python `str.replace(c, '')` for a single character. -/
def removeChar (c : Char) (l : List Char) : List Char :=
  l.filter (fun x => x ≠ c)

/-- Python `str.split(sep)` for a one-character separator:
`"".split(',') = [""]`, `"a,b".split(',') = ["a","b"]`. -/
def pySplit (sep : Char) : List Char → List (List Char)
  | [] => [[]]
  | c :: cs =>
    if c = sep then [] :: pySplit sep cs
    else
      match pySplit sep cs with
      | p :: ps => (c :: p) :: ps
      | [] => [[c]]

/-- Python `str.rfind(c)`: index of the last occurrence, `-1` if absent. -/
def pyRfind (l : List Char) (c : Char) : Int :=
  match List.findIdx? (fun x => x = c) l.reverse with
  | some i => (l.length : Int) - 1 - (i : Int)
  | none => -1

/-- Python's substring test `a in s`. -/
def isSubstr (a : List Char) : List Char → Bool
  | [] => a.isEmpty
  | c :: cs => a.isPrefixOf (c :: cs) || isSubstr a cs

/-- One step of Python's stable `list.sort`: insert `x` after every element
`y` it does not strictly precede (`lt x y = false`). -/
def insertSorted (lt : α → α → Bool) (x : α) : List α → List α
  | [] => [x]
  | y :: ys => if lt x y then x :: y :: ys else y :: insertSorted lt x ys

/-- Python's stable `list.sort` with strict comparison `lt` on keys
(insertion sort; equal keys keep their original relative order, as
Python's sort guarantees). -/
def pySortBy (lt : α → α → Bool) (l : List α) : List α :=
  l.foldl (fun acc x => insertSorted lt x acc) []

/-! ## Python `Decimal` literals

`Decimal(s)` on the strings the parsers build (digits, `.`, `-` after
cleaning): optional sign, then an integer part and/or a fractional part
with at least one digit overall; anything else raises `InvalidOperation`.
Amounts are modelled as exact rationals. -/

/-- `Decimal(s)` for sign/digits/point strings, `none` on
`InvalidOperation`. -/
def decimalOfString (s : List Char) : Option ℚ :=
  let (neg, rest) :=
    match s with
    | '-' :: r => (true, r)
    | '+' :: r => (false, r)
    | r => (false, r)
  let ip := rest.takeWhile isDigit
  let rest2 := rest.drop ip.length
  let mk := fun (ipart fpart : List Char) =>
    let mag : ℚ := (natOfDigits ipart : ℚ) +
      (natOfDigits fpart : ℚ) / ((10 : ℚ) ^ fpart.length)
    some (if neg then -mag else mag)
  match rest2 with
  | [] => if ip.isEmpty then none else mk ip []
  | '.' :: fp' =>
    let fp := fp'.takeWhile isDigit
    if fp.length ≠ fp'.length then none
    else if ip.isEmpty && fp.isEmpty then none
    else mk ip fp
  | _ => none

/-! ## `app/services/csv_parser.py` -/

/-- `ParsedTransaction` (`app/schemas/import_statement.py`): date,
trimmed description, positive decimal amount, original description.
Shared by the CSV parser, the PDF parser and the analyzer. -/
structure ParsedTransaction where
  date : PyDate
  description : List Char
  amount : ℚ
  original_description : List Char
deriving DecidableEq, Repr, Inhabited

/-- `DateRange` (`app/schemas/import_statement.py`). -/
structure DateRange where
  first : PyDate
  last : PyDate
deriving DecidableEq, Repr

namespace CsvParser

/-- The header regexes of `csv_parser.py` all have one of two shapes:
`^lit$` or `^a.*b$` (anchored by `re.match` plus a trailing `$`). -/
inductive HeaderPat
  | exact (lit : List Char)
  | wild (a b : List Char)
deriving DecidableEq, Repr

/-- Matching one header pattern against an already stripped header (the
caller strips first).  `^a.*b$` matches iff the header starts with `a`,
ends with `b`, and the middle spanned by `.*` contains no newline (regex
`.` does not match `\n`; after stripping there is no trailing newline, so
`$` can only match at the end). -/
def headerPatMatch (p : HeaderPat) (s : List Char) : Bool :=
  match p with
  | .exact lit => s = lit
  | .wild a b =>
    a.isPrefixOf s && b.isSuffixOf (s.drop a.length) &&
      s.length ≥ a.length + b.length &&
      !(((s.drop a.length).take (s.length - a.length - b.length)).contains '\n')

/-- `DATE_PATTERNS`. -/
def DATE_PATTERNS : List HeaderPat :=
  [ .exact (cl "date")                        -- r'^date$'
  , .wild (cl "trans") (cl "date")            -- r'^trans.*date$'
  , .wild (cl "posted") (cl "date")           -- r'^posted.*date$'
  , .wild (cl "posting") (cl "date")          -- r'^posting.*date$'
  , .wild (cl "transaction") (cl "date")      -- r'^transaction.*date$'
  , .wild (cl "value") (cl "date")            -- r'^value.*date$'
  , .wild (cl "effective") (cl "date") ]      -- r'^effective.*date$'

/-- `DESCRIPTION_PATTERNS`. -/
def DESCRIPTION_PATTERNS : List HeaderPat :=
  [ .exact (cl "description"), .exact (cl "memo"), .exact (cl "narrative")
  , .exact (cl "details"), .exact (cl "payee"), .exact (cl "merchant")
  , .exact (cl "name"), .exact (cl "particulars")
  , .wild (cl "transaction") (cl "description")  -- r'^transaction.*description$'
  , .wild (cl "payment") (cl "details") ]        -- r'^payment.*details$'

/-- `AMOUNT_PATTERNS`. -/
def AMOUNT_PATTERNS : List HeaderPat :=
  [ .exact (cl "amount"), .exact (cl "value")
  , .wild (cl "transaction") (cl "amount")       -- r'^transaction.*amount$'
  , .exact (cl "sum") ]

/-- `DEBIT_PATTERNS`. -/
def DEBIT_PATTERNS : List HeaderPat :=
  [ .exact (cl "debit"), .exact (cl "withdrawal"), .exact (cl "dr")
  , .wild (cl "debit") (cl "amount")             -- r'^debit.*amount$'
  , .exact (cl "out") ]

/-- `CREDIT_PATTERNS`. -/
def CREDIT_PATTERNS : List HeaderPat :=
  [ .exact (cl "credit"), .exact (cl "deposit"), .exact (cl "cr")
  , .wild (cl "credit") (cl "amount")            -- r'^credit.*amount$'
  , .exact (cl "in") ]

/-- `match_column(header, patterns)`: lowercase and strip the header, then
try each pattern with `re.match`. -/
def match_column (header : List Char) (patterns : List HeaderPat) : Bool :=
  let header_lower := pyStrip (pyLower header)
  patterns.any (fun p => headerPatMatch p header_lower)

/-- The five detected column indices (`detect_columns` result dict). -/
structure DetectedColumns where
  date : Option Nat
  description : Option Nat
  amount : Option Nat
  debit : Option Nat
  credit : Option Nat
deriving DecidableEq, Repr

/-- `detect_columns(headers)`: first match wins per role, and a column
already assigned to one role is not reconsidered for another (the `elif`
chain). -/
def detect_columns (headers : List (List Char)) : DetectedColumns :=
  (headers.enum).foldl
    (fun cols iv =>
      let idx := iv.1
      let header := iv.2
      if cols.date.isNone && match_column header DATE_PATTERNS then
        { cols with date := some idx }
      else if cols.description.isNone && match_column header DESCRIPTION_PATTERNS then
        { cols with description := some idx }
      else if cols.amount.isNone && match_column header AMOUNT_PATTERNS then
        { cols with amount := some idx }
      else if cols.debit.isNone && match_column header DEBIT_PATTERNS then
        { cols with debit := some idx }
      else if cols.credit.isNone && match_column header CREDIT_PATTERNS then
        { cols with credit := some idx }
      else cols)
    ⟨none, none, none, none, none⟩

/-! ### `strptime`-style date parsing

Each entry of `DATE_FORMATS` is a token list; matching mirrors CPython's
`_strptime`: `%Y` is exactly four digits, `%y` exactly two (mapped to
2000+v for v<69, 1900+v otherwise), `%m` is `1[0-2]|0[1-9]|[1-9]`, `%d`
is `3[01]|[12]\d|0[1-9]|[1-9]` (alternatives tried in order, with
backtracking), `%b`/`%B` are case-insensitive month names, a whitespace
character in the format matches `\s+`, any other literal matches itself,
and the whole string must be consumed.  A full match is then validated as
a `datetime.date` (year 1..9999, day at most the month length), failing
which the format raises `ValueError` and the next one is tried. -/

/-- One `strptime` format token. -/
inductive FTok
  | lit (c : Char)
  | Y | m | d | y | b | B
deriving DecidableEq, Repr

/-- Lower-cased three-letter month abbreviations (`%b`). -/
def MONTH_ABBREVS : List (List Char) :=
  [cl "jan", cl "feb", cl "mar", cl "apr", cl "may", cl "jun",
   cl "jul", cl "aug", cl "sep", cl "oct", cl "nov", cl "dec"]

/-- Lower-cased full month names (`%B`). -/
def MONTH_NAMES : List (List Char) :=
  [cl "january", cl "february", cl "march", cl "april", cl "may",
   cl "june", cl "july", cl "august", cl "september", cl "october",
   cl "november", cl "december"]

/-- Partially parsed `strptime` fields (defaults 1900-01-01). -/
structure StrpAcc where
  y : Nat
  mo : Nat
  d : Nat
deriving DecidableEq, Repr

/-- Try to find `pre` (case-insensitively) as a prefix of `s`; on success
return the remainder. -/
def matchCaseless (pre : List Char) (s : List Char) : Option (List Char) :=
  if (s.take pre.length).map lowerChar = pre then some (s.drop pre.length)
  else none

/-- Backtracking matcher for one token list over the whole string. -/
def strpMatch : List FTok → List Char → StrpAcc → Option StrpAcc
  | [], s, acc => if s.isEmpty then some acc else none
  | t :: ts, s, acc =>
    match t with
    | .lit c =>
      if isSpace c then
        -- CPython replaces whitespace in the format by `\s+`
        match s with
        | c' :: rest =>
          if isSpace c' then strpMatch ts (rest.dropWhile isSpace) acc else none
        | [] => none
      else
        match s with
        | c' :: rest => if c' = c then strpMatch ts rest acc else none
        | [] => none
    | .Y =>
      let ds := s.take 4
      if ds.length = 4 && ds.all isDigit then
        strpMatch ts (s.drop 4) { acc with y := natOfDigits ds }
      else none
    | .y =>
      let ds := s.take 2
      if ds.length = 2 && ds.all isDigit then
        let v := natOfDigits ds
        strpMatch ts (s.drop 2)
          { acc with y := if v < 69 then 2000 + v else 1900 + v }
      else none
    | .m =>
      let one :=
        match s with
        | a :: rest =>
          if '1' ≤ a && a ≤ '9' then
            strpMatch ts rest { acc with mo := digitVal a }
          else none
        | [] => none
      (match s with
       | a :: bc :: rest =>
         if a = '1' && '0' ≤ bc && bc ≤ '2' then
           (strpMatch ts rest { acc with mo := 10 + digitVal bc }).orElse (fun _ => one)
         else if a = '0' && '1' ≤ bc && bc ≤ '9' then
           (strpMatch ts rest { acc with mo := digitVal bc }).orElse (fun _ => one)
         else one
       | _ => one)
    | .d =>
      let one :=
        match s with
        | a :: rest =>
          if '1' ≤ a && a ≤ '9' then
            strpMatch ts rest { acc with d := digitVal a }
          else none
        | [] => none
      (match s with
       | a :: bc :: rest =>
         if a = '3' && ('0' ≤ bc && bc ≤ '1') then
           (strpMatch ts rest { acc with d := 30 + digitVal bc }).orElse (fun _ => one)
         else if ('1' ≤ a && a ≤ '2') && isDigit bc then
           (strpMatch ts rest { acc with d := 10 * digitVal a + digitVal bc }).orElse
             (fun _ => one)
         else if a = '0' && '1' ≤ bc && bc ≤ '9' then
           (strpMatch ts rest { acc with d := digitVal bc }).orElse (fun _ => one)
         else one
       | _ => one)
    | .b =>
      (MONTH_ABBREVS.enum).firstM (fun im =>
        match matchCaseless im.2 s with
        | some rest => strpMatch ts rest { acc with mo := im.1 + 1 }
        | none => none)
    | .B =>
      (MONTH_NAMES.enum).firstM (fun im =>
        match matchCaseless im.2 s with
        | some rest => strpMatch ts rest { acc with mo := im.1 + 1 }
        | none => none)

/-- Full-match one format and validate the result as a `datetime.date`. -/
def tryFormat (f : List FTok) (s : List Char) : Option PyDate :=
  match strpMatch f s ⟨1900, 1, 1⟩ with
  | some acc =>
    if 1 ≤ acc.y && acc.y ≤ 9999 && 1 ≤ acc.d && acc.d ≤ daysInMonth acc.y acc.mo
    then some ⟨acc.y, acc.mo, acc.d⟩
    else none
  | none => none

/-- `DATE_FORMATS` of `csv_parser.py`, in source order. -/
def DATE_FORMATS : List (List FTok) :=
  [ [.Y, .lit '-', .m, .lit '-', .d]            -- '%Y-%m-%d'
  , [.m, .lit '/', .d, .lit '/', .Y]            -- '%m/%d/%Y'
  , [.d, .lit '/', .m, .lit '/', .Y]            -- '%d/%m/%Y'
  , [.m, .lit '-', .d, .lit '-', .Y]            -- '%m-%d-%Y'
  , [.d, .lit '-', .m, .lit '-', .Y]            -- '%d-%m-%Y'
  , [.Y, .lit '/', .m, .lit '/', .d]            -- '%Y/%m/%d'
  , [.d, .lit ' ', .b, .lit ' ', .Y]            -- '%d %b %Y'
  , [.b, .lit ' ', .d, .lit ',', .lit ' ', .Y]  -- '%b %d, %Y'
  , [.d, .lit '-', .b, .lit '-', .Y]            -- '%d-%b-%Y'
  , [.m, .lit '/', .d, .lit '/', .y]            -- '%m/%d/%y'
  , [.d, .lit '/', .m, .lit '/', .y] ]          -- '%d/%m/%y'

/-- `parse_date(date_str)`: strip, then first format that fully parses and
validates wins. -/
def parse_date (date_str : List Char) : Option PyDate :=
  let date_str := pyStrip date_str
  if date_str.isEmpty then none
  else DATE_FORMATS.findSome? (fun f => tryFormat f date_str)

/-- The character filter of `parse_amount`:
`re.sub(r'[^\d.,\-]', '', amount_str.strip())`. -/
def cleanAmount (s : List Char) : List Char :=
  (pyStrip s).filter (fun c => isDigit c || c = '.' || c = ',' || c = '-')

/-- `parse_amount(amount_str)` from `csv_parser.py`: separator
disambiguation followed by `Decimal`. -/
def parse_amount (amount_str : List Char) : Option ℚ :=
  if amount_str.isEmpty then none
  else
    let cleaned := cleanAmount amount_str
    if cleaned.isEmpty then none
    else
      let cleaned :=
        if cleaned.contains ',' && cleaned.contains '.' then
          if pyRfind cleaned ',' > pyRfind cleaned '.' then
            -- European format: 1.234,56
            pyReplaceChar ',' '.' (removeChar '.' cleaned)
          else
            -- US format: 1,234.56
            removeChar ',' cleaned
        else if cleaned.contains ',' then
          let parts := pySplit ',' cleaned
          if parts.length = 2 && (parts.getD 1 []).length ≤ 2 then
            -- likely decimal separator
            pyReplaceChar ',' '.' cleaned
          else
            -- likely thousands separator
            removeChar ',' cleaned
        else cleaned
      decimalOfString cleaned

/-- Outcome of one data row of the `parse_csv` loop: a transaction, a
skip counted in `skipped_count`, or the credit-row `continue` that skips
without counting. -/
inductive RowOutcome
  | emit (t : ParsedTransaction)
  | skipCounted
  | skipUncounted
deriving DecidableEq, Repr

/-- `max(filter(None, columns.values()))`: Python's `filter(None, ...)`
drops both `None` and the falsy index `0`.  (Under `parse_csv`'s guards
the filtered list is never empty.) -/
def maxAssignedIdx (cols : DetectedColumns) : Nat :=
  (([cols.date, cols.description, cols.amount, cols.debit,
     cols.credit].filterMap id).filter (fun i => i ≠ 0)).foldl max 0

/-- Lines 240-244 of `parse_csv`: for a unified amount column with no
debit/credit columns, a negative amount would be replaced by its absolute
value.  (C10 shows the branch is unreachable: the guard at line 235 has
already discarded non-positive amounts.) -/
def finalizeAmount (has_amount has_debit_credit : Bool) (amount : ℚ) : ℚ :=
  if has_amount && !has_debit_credit && amount < 0 then |amount| else amount

/-- Building the emitted transaction (lines 240-252). -/
def emitStep (has_amount has_debit_credit : Bool) (date_val : PyDate)
    (description : List Char) (amount : ℚ) : ParsedTransaction :=
  ⟨date_val, description, finalizeAmount has_amount has_debit_credit amount,
   description⟩

/-- One iteration of the data-row loop of `parse_csv` (lines 201-252). -/
def processRow (cols : DetectedColumns) (row : List (List Char)) : RowOutcome :=
  if row.length ≤ maxAssignedIdx cols then .skipCounted
  else
    let cell := fun (i : Nat) => row.getD i []
    match parse_date (cell (cols.date.getD 0)) with
    | none => .skipCounted
    | some date_val =>
      let description := pyStrip (cell (cols.description.getD 0))
      if description.isEmpty then .skipCounted
      else
        let has_amount := cols.amount.isSome
        let has_debit_credit := cols.debit.isSome || cols.credit.isSome
        -- lines 219-233: amount from the unified column, or debit/credit
        let amount0 : Option ℚ :=
          if has_amount then parse_amount (cell (cols.amount.getD 0))
          else
            match cols.debit with
            | some di =>
              match parse_amount (cell di) with
              | some debit => if debit ≠ 0 then some |debit| else none
              | none => none
            | none => none
        let creditSkip : Bool :=
          if !has_amount && amount0.isNone then
            match cols.credit with
            | some ci =>
              match parse_amount (cell ci) with
              | some credit => credit ≠ 0
              | none => false
            | none => false
          else false
        if creditSkip then .skipUncounted
        else
          match amount0 with
          | none => .skipCounted
          | some amount =>
            if amount ≤ 0 then .skipCounted
            else .emit (emitStep has_amount has_debit_credit date_val
              description amount)

/-- Fatal `CSVParseError` cases of `parse_csv`, by message. -/
inductive CSVError
  | noDataRows          -- "CSV file contains no data rows"
  | noDateColumn        -- "Could not detect date column..."
  | noDescriptionColumn -- "Could not detect description column..."
  | noAmountColumn      -- "Could not detect amount column..."
  | noValidTransactions -- "No valid transactions found in CSV"
deriving DecidableEq, Repr

/-- Row-level warnings of `parse_csv` (the encoding warning belongs to the
byte-decoding stage, outside this embedding's boundary). -/
inductive CSVWarning
  | skippedRows (n : Nat)  -- "Skipped {n} rows due to missing or invalid data"
deriving DecidableEq, Repr

/-- `parse_csv`, from the point where the byte content has been decoded
and split into rows (encoding detection and `csv.Sniffer` dialect
detection act on raw bytes via external libraries and happen before this
boundary). -/
def parse_csv (rows : List (List (List Char))) :
    Except CSVError (List ParsedTransaction × List CSVWarning) :=
  if rows.length < 2 then .error .noDataRows
  else
    let headers := rows.headD []
    let columns := detect_columns headers
    if columns.date.isNone then .error .noDateColumn
    else if columns.description.isNone then .error .noDescriptionColumn
    else
      let has_amount := columns.amount.isSome
      let has_debit_credit := columns.debit.isSome || columns.credit.isSome
      if !has_amount && !has_debit_credit then .error .noAmountColumn
      else
        let outcomes := rows.tail.map (processRow columns)
        let transactions := outcomes.filterMap (fun o =>
          match o with
          | .emit t => some t
          | _ => none)
        let skipped_count := (outcomes.filter
          (fun o => o = RowOutcome.skipCounted)).length
        let warnings :=
          if skipped_count > 0 then [CSVWarning.skippedRows skipped_count]
          else []
        if transactions.isEmpty then .error .noValidTransactions
        else
          .ok (pySortBy (fun a b => dateLt a.date b.date) transactions,
            warnings)

/-- Spec-side normalization for an amount containing both `,` and `.`,
written from the spec's words: the later-occurring separator is treated as
the decimal point (each of its occurrences becomes `.`) and the other is
stripped. -/
def specBothSepsNormalize (cleaned : List Char) : List Char :=
  let decSep : Char :=
    if pyRfind cleaned ',' > pyRfind cleaned '.' then ',' else '.'
  let other : Char := if decSep = ',' then '.' else ','
  (removeChar other cleaned).map (fun c => if c = decSep then '.' else c)

/-- Spec-side condition for a comma-only amount, written from the spec's
words: the comma is treated as the decimal point when it is the only comma
and is followed by at most two characters (the spec's "at most 2 digits";
the cleaned string contains only digits, `-` and separators, and a `-` in
the suffix makes both readings raise `InvalidOperation`). -/
def specCommaIsDecimal (cleaned : List Char) : Bool :=
  cleaned.count ',' = 1 &&
    ((cleaned.dropWhile (fun c => c ≠ ',')).tail).length ≤ 2

end CsvParser

/-! ## `app/services/recurrence.py` -/

namespace Recurrence

/-- The fields of `app.models.payment.Payment` read by
`payment_occurs_on_date`; the remaining columns (id, name, amount,
currency, category, notes, timestamps) do not influence the predicate. -/
structure Payment where
  recurrence : String
  day_of_month : Option Nat
  day_of_week : Option Nat
  start_date : PyDate
  end_date : Option PyDate
deriving DecidableEq, Repr

/-- Python `v or dflt` for an optional integer: `None` and `0` are falsy. -/
def orDefault (v : Option Nat) (dflt : Nat) : Nat :=
  match v with
  | some n => if n ≠ 0 then n else dflt
  | none => dflt

/-- `get_last_day_of_month` (`monthrange(year, month)[1]`). -/
def get_last_day_of_month (year month : Nat) : Nat := daysInMonth year month

/-- `payment_occurs_on_date(payment, check_date)` from
`app/services/recurrence.py`.  Python `//` and `%` on ints are floor
division and floor modulus, hence `Int.fdiv` / `Int.fmod`. -/
def payment_occurs_on_date (payment : Payment) (check_date : PyDate) : Bool :=
  if dateLt check_date payment.start_date then false
  else if (match payment.end_date with
           | some e => dateLt e check_date
           | none => false) then false
  else
    let recurrence := payment.recurrence
    if recurrence = "ONETIME" then
      check_date = payment.start_date
    else if recurrence = "MONTHLY" then
      let day_of_month := orDefault payment.day_of_month payment.start_date.day
      let last_day := get_last_day_of_month check_date.year check_date.month
      let target_day := min day_of_month last_day
      check_date.day = target_day
    else if recurrence = "WEEKLY" then
      let day_of_week :=
        match payment.day_of_week with
        | some w => w
        | none => pyWeekday payment.start_date
      pyWeekday check_date = day_of_week
    else if recurrence = "BIWEEKLY" then
      let day_of_week :=
        match payment.day_of_week with
        | some w => w
        | none => pyWeekday payment.start_date
      if pyWeekday check_date ≠ day_of_week then false
      else
        let days_diff := dateDiffDays check_date payment.start_date
        let weeks_diff := Int.fdiv days_diff 7
        decide (0 ≤ weeks_diff ∧ Int.fmod weeks_diff 2 = 0)
    else if recurrence = "QUARTERLY" then
      let day_of_month := orDefault payment.day_of_month payment.start_date.day
      let last_day := get_last_day_of_month check_date.year check_date.month
      let target_day := min day_of_month last_day
      if check_date.day ≠ target_day then false
      else
        let month_diff : Int :=
          ((check_date.year : Int) - (payment.start_date.year : Int)) * 12 +
            ((check_date.month : Int) - (payment.start_date.month : Int))
        decide (0 ≤ month_diff ∧ Int.fmod month_diff 3 = 0)
    else if recurrence = "ANNUAL" then
      let day_of_month := orDefault payment.day_of_month payment.start_date.day
      if payment.start_date.month = 2 ∧ day_of_month = 29 then
        let last_day := get_last_day_of_month check_date.year 2
        check_date.month = 2 ∧ check_date.day = last_day
      else
        let last_day := get_last_day_of_month check_date.year payment.start_date.month
        let target_day := min day_of_month last_day
        check_date.month = payment.start_date.month ∧ check_date.day = target_day
    else false

end Recurrence

/-! ## Shared regex-substitution machinery

Each `re.sub` in the source is translated to a scan with a dedicated
per-pattern matcher.  `re.sub` semantics: scan left to right; at each
position try the pattern (with its own greediness/backtracking, encoded in
the matcher); on a match of length `n ≥ 1` emit the replacement and resume
after the match, otherwise copy one character. -/

/-- Left-to-right scan-and-replace, with explicit fuel to keep the
recursion structural (each step consumes at least one character, so fuel
equal to the length never runs out).  `matchAt` returns the length of a
match starting at the head of its argument (all matchers here only ever
match at least one character). -/
def reSubScanAux (matchAt : List Char → Option Nat) (repl : List Char) :
    Nat → List Char → List Char
  | _, [] => []
  | 0, l => l
  | fuel + 1, c :: cs =>
    match matchAt (c :: cs) with
    | some n => repl ++ reSubScanAux matchAt repl fuel (cs.drop (n - 1))
    | none => c :: reSubScanAux matchAt repl fuel cs

/-- `re.sub` scan over the whole string. -/
def reSubScan (matchAt : List Char → Option Nat) (repl : List Char)
    (l : List Char) : List Char :=
  reSubScanAux matchAt repl l.length l

/-- Matcher for the embedded date token pattern of the source
(`\d` one or two, then `/` or `-`, again digits and a separator, then two
to four digits) at the head of the string, greedy with backtracking: a run
of more than two digits before a separator can never match. -/
def matchDateTokenAt (s : List Char) : Option Nat :=
  let isSep := fun c => c = '/' || c = '-'
  let r1 := (s.takeWhile isDigit).length
  if r1 = 0 || r1 > 2 then none
  else
    match s.drop r1 with
    | c1 :: rest1 =>
      if isSep c1 then
        let r2 := (rest1.takeWhile isDigit).length
        if r2 = 0 || r2 > 2 then none
        else
          match rest1.drop r2 with
          | c2 :: rest2 =>
            if isSep c2 then
              let r3 := (rest2.takeWhile isDigit).length
              if r3 < 2 then none
              else some (r1 + 1 + r2 + 1 + min r3 4)
            else none
          | [] => none
      else none
    | [] => none

/-- Matcher for `\s+` at the head of the string. -/
def matchWsRunAt (s : List Char) : Option Nat :=
  let n := (s.takeWhile isSpace).length
  if n = 0 then none else some n

/-- `re.sub(r'\s+', ' ', s)`. -/
def collapseWs (s : List Char) : List Char :=
  reSubScan matchWsRunAt [' '] s

/-- Helper for a trailing `$`: Python `$` (no `MULTILINE`) matches at the
end of the string or just before one final newline.  Splits off that final
newline when present. -/
def pyDollarSplit (s : List Char) : List Char × List Char :=
  match s.reverse with
  | '\n' :: r => (r.reverse, ['\n'])
  | _ => (s, [])

/-! ## `app/services/transaction_analyzer.py` -/

namespace TransactionAnalyzer

/-- `re.sub(r'\s*#?\d{4,}$', '', s)`: remove one trailing run of at least
four digits, an optional `#` before it, and any whitespace before that
(leftmost-longest: the whole maximal trailing digit run, all the
whitespace). -/
def stripTrailingRefNum (s : List Char) : List Char :=
  let (core, nl) := pyDollarSplit s
  let r := core.reverse
  let ds := r.takeWhile isDigit
  if ds.length ≥ 4 then
    let r1 := r.drop ds.length
    let r2 := match r1 with
      | '#' :: t => t
      | t => t
    ((r2.dropWhile isSpace).reverse) ++ nl
  else s

/-- `normalize_description(desc)`: lowercase, strip, drop a trailing
reference number, drop embedded date tokens, collapse whitespace,
strip. -/
def normalize_description (desc : List Char) : List Char :=
  let normalized := pyStrip (pyLower desc)
  let normalized := stripTrailingRefNum normalized
  let normalized := reSubScan matchDateTokenAt [] normalized
  pyStrip (collapseWs normalized)

/-- The alternation of
`re.sub(r'^(pos|ach|wire|check|card|debit|credit)\s+', '', name, re.I)`,
in source order. -/
def PREFIX_WORDS : List (List Char) :=
  [cl "pos", cl "ach", cl "wire", cl "check", cl "card", cl "debit",
   cl "credit"]

/-- `re.sub(r'^(pos|ach|wire|check|card|debit|credit)\s+', '', name,
flags=re.IGNORECASE)`: anchored at the start (no `MULTILINE`), so at most
one replacement; the greedy `\s+` removes the whole whitespace run. -/
def stripPrefixWord (s : List Char) : List Char :=
  match PREFIX_WORDS.findSome? (fun w =>
    if (s.take w.length).map lowerChar = w then
      let rest := s.drop w.length
      let ws := (rest.takeWhile isSpace).length
      if ws ≥ 1 then some (rest.drop ws) else none
    else none) with
  | some r => r
  | none => s

/-- Does `\s*#?\d{6,}.*$` match at the head of `s`?  If so, return what
survives the substitution of the matched span by `''` (nothing, or the one
final newline `$` matched in front of; `.` does not match `\n`). -/
def longIdMatchHere (s : List Char) : Option (List Char) :=
  let rest := s.dropWhile isSpace
  let rest := match rest with
    | '#' :: t => t
    | t => t
  let ds := rest.takeWhile isDigit
  if ds.length ≥ 6 then
    let tail := rest.drop ds.length
    if tail.contains '\n' then
      let t1 := tail.takeWhile (fun c => c ≠ '\n')
      if (tail.drop (t1.length + 1)).isEmpty then some ['\n'] else none
    else some []
  else none

/-- `re.sub(r'\s*#?\d{6,}.*$', '', name)` (leftmost match wins; the match
extends to the end of the line/string). -/
def stripLongIdTail : List Char → List Char
  | [] => []
  | c :: cs =>
    match longIdMatchHere (c :: cs) with
    | some tailRepl => tailRepl
    | none => c :: stripLongIdTail cs

/-- Like `longIdMatchHere` for `\s+ref.*$` (case-insensitive `ref`). -/
def refMatchHere (s : List Char) : Option (List Char) :=
  let ws := (s.takeWhile isSpace).length
  if ws ≥ 1 && ((s.drop ws).take 3).map lowerChar = cl "ref" then
    let tail := s.drop (ws + 3)
    if tail.contains '\n' then
      let t1 := tail.takeWhile (fun c => c ≠ '\n')
      if (tail.drop (t1.length + 1)).isEmpty then some ['\n'] else none
    else some []
  else none

/-- `re.sub(r'\s+ref.*$', '', name, flags=re.IGNORECASE)`. -/
def stripRefTail : List Char → List Char
  | [] => []
  | c :: cs =>
    match refMatchHere (c :: cs) with
    | some tailRepl => tailRepl
    | none => c :: stripRefTail cs

/-- Python `str.title()` on ASCII: a letter is uppercased after a
non-letter and lowercased after a letter. -/
def pyTitle (s : List Char) : List Char :=
  (s.foldl (fun (acc : List Char × Bool) c =>
    let out := if isAlpha c then (if acc.2 then lowerChar c else upperChar c)
      else c
    (acc.1 ++ [out], isAlpha c)) ([], false)).1

/-- `clean_merchant_name(desc)`. -/
def clean_merchant_name (desc : List Char) : List Char :=
  let name := pyStrip desc
  let name := stripPrefixWord name
  let name := stripLongIdTail name
  let name := stripRefTail name
  let name := reSubScan matchDateTokenAt [] name
  let name := pyStrip (collapseWs name)
  let name := if !name.isEmpty then pyTitle name else name
  if !name.isEmpty then name.take 100 else desc.take 100

/-- The shapes of the `re.search` keyword patterns of
`transaction_analyzer.py`: a plain substring, `a.*b`, `a.b` (one wildcard
character) and `amazon(?!.*prime)` (negative lookahead). -/
inductive KPat
  | lit (s : List Char)
  | seqWild (a b : List Char)
  | anyOne (a b : List Char)
  | negAhead (a b : List Char)
deriving DecidableEq, Repr

/-- `re.search(a.*b, s)` at successive start positions: `a`, then `b`
somewhere later on the same line (`.` does not cross `\n`). -/
def searchSeqWild (a b : List Char) : List Char → Bool
  | [] => false
  | c :: cs =>
    (a.isPrefixOf (c :: cs) &&
      isSubstr b (((c :: cs).drop a.length).takeWhile (fun x => x ≠ '\n')))
    || searchSeqWild a b cs

/-- `re.search(a.b, s)`: `a`, one non-newline character, then `b`. -/
def searchAnyOne (a b : List Char) : List Char → Bool
  | [] => false
  | c :: cs =>
    (a.isPrefixOf (c :: cs) &&
      (match (c :: cs).drop a.length with
       | x :: r => x ≠ '\n' && b.isPrefixOf r
       | [] => false))
    || searchAnyOne a b cs

/-- `re.search(a(?!.*b), s)`: an occurrence of `a` not followed by `b` on
the same line. -/
def searchNegAhead (a b : List Char) : List Char → Bool
  | [] => false
  | c :: cs =>
    (a.isPrefixOf (c :: cs) &&
      !(isSubstr b (((c :: cs).drop a.length).takeWhile (fun x => x ≠ '\n'))))
    || searchNegAhead a b cs

/-- `re.search` for one keyword pattern. -/
def searchKP (p : KPat) (s : List Char) : Bool :=
  match p with
  | .lit l => isSubstr l s
  | .seqWild a b => searchSeqWild a b s
  | .anyOne a b => searchAnyOne a b s
  | .negAhead a b => searchNegAhead a b s

/-- `CATEGORY_KEYWORDS`, in dict insertion order. -/
def CATEGORY_KEYWORDS : List (String × List KPat) :=
  [ ("LOAN",
      [ .lit (cl "loan"), .lit (cl "mortgage"), .lit (cl "emi")
      , .lit (cl "finance"), .lit (cl "lending")
      , .seqWild (cl "credit") (cl "payment")   -- r'credit.*payment'
      , .seqWild (cl "car") (cl "payment")      -- r'car.*payment'
      , .seqWild (cl "auto") (cl "loan")        -- r'auto.*loan'
      , .seqWild (cl "home") (cl "loan")        -- r'home.*loan'
      , .seqWild (cl "personal") (cl "loan") ]) -- r'personal.*loan'
  , ("SUBSCRIPTION",
      [ .lit (cl "netflix"), .lit (cl "spotify"), .lit (cl "hulu")
      , .lit (cl "disney"), .lit (cl "hbo")
      , .seqWild (cl "amazon") (cl "prime")     -- r'amazon.*prime'
      , .seqWild (cl "apple") (cl "music")      -- r'apple.*music'
      , .seqWild (cl "youtube") (cl "premium")  -- r'youtube.*premium'
      , .lit (cl "gym"), .lit (cl "fitness"), .lit (cl "membership")
      , .lit (cl "subscription"), .lit (cl "adobe")
      , .seqWild (cl "microsoft") (cl "365")    -- r'microsoft.*365'
      , .lit (cl "dropbox"), .lit (cl "icloud") ])
  , ("INVESTMENT",
      [ .lit (cl "sip")
      , .seqWild (cl "mutual") (cl "fund")      -- r'mutual.*fund'
      , .lit (cl "invest"), .lit (cl "401k"), .lit (cl "etrade")
      , .lit (cl "fidelity"), .lit (cl "vanguard"), .lit (cl "schwab")
      , .lit (cl "robinhood"), .lit (cl "zerodha"), .lit (cl "groww") ])
  , ("INSURANCE",
      [ .lit (cl "insurance"), .lit (cl "geico")
      , .seqWild (cl "state") (cl "farm")       -- r'state.*farm'
      , .lit (cl "allstate"), .lit (cl "progressive")
      , .seqWild (cl "liberty") (cl "mutual")   -- r'liberty.*mutual'
      , .lit (cl "lic")
      , .seqWild (cl "policy") (cl "premium")   -- r'policy.*premium'
      , .seqWild (cl "health") (cl "plan") ])   -- r'health.*plan'
  , ("UTILITY",
      [ .lit (cl "electric"), .lit (cl "water"), .lit (cl "gas")
      , .lit (cl "internet"), .lit (cl "comcast"), .lit (cl "verizon")
      , .lit (cl "at&t")
      , .anyOne (cl "at") (cl "t")              -- r'at.t'
      , .lit (cl "t-mobile"), .lit (cl "tmobile"), .lit (cl "spectrum")
      , .lit (cl "xfinity"), .lit (cl "utility"), .lit (cl "power")
      , .lit (cl "energy"), .lit (cl "broadband"), .lit (cl "wifi")
      , .seqWild (cl "phone") (cl "bill") ]) ]  -- r'phone.*bill'

/-- `EXCLUDE_PATTERNS`, in source order. -/
def EXCLUDE_PATTERNS : List KPat :=
  [ .lit (cl "atm"), .lit (cl "withdrawal"), .lit (cl "transfer")
  , .seqWild (cl "payment") (cl "received")     -- r'payment.*received'
  , .lit (cl "deposit"), .lit (cl "grocery"), .lit (cl "groceries")
  , .lit (cl "supermarket"), .lit (cl "walmart"), .lit (cl "target")
  , .lit (cl "restaurant"), .lit (cl "cafe"), .lit (cl "coffee")
  , .lit (cl "starbucks"), .lit (cl "mcdonald")
  , .seqWild (cl "gas") (cl "station")          -- r'gas.*station'
  , .lit (cl "fuel"), .lit (cl "petrol"), .lit (cl "uber")
  , .lit (cl "lyft"), .lit (cl "taxi")
  , .negAhead (cl "amazon") (cl "prime")        -- r'amazon(?!.*prime)'
  , .lit (cl "ebay")
  , .seqWild (cl "paypal") (cl "transfer")      -- r'paypal.*transfer'
  , .lit (cl "venmo"), .lit (cl "zelle") ]

/-- `categorize_by_keywords(description)`: exclusions first (empty string
means "drop the group"), then the categories in dict order, else
`OTHER`. -/
def categorize_by_keywords (description : List Char) : String :=
  let desc_lower := pyLower description
  if EXCLUDE_PATTERNS.any (fun p => searchKP p desc_lower) then ""
  else
    match CATEGORY_KEYWORDS.findSome? (fun cp =>
      if cp.2.any (fun p => searchKP p desc_lower) then some cp.1 else none) with
    | some category => category
    | none => "OTHER"

/-- `max(set(vals), key=vals.count)`.  Python's `set` iteration order is
an implementation detail, so the tie-break among equally frequent values
is unspecified in the source (spec §9); here ties go to the value seen
first.  Every property proved below has a unique most-frequent value. -/
def modeBy (vals : List Nat) : Nat :=
  let uniq := vals.foldl (fun acc v =>
    if acc.contains v then acc else acc ++ [v]) []
  (uniq.foldl (fun best v =>
    match best with
    | none => some v
    | some b => if vals.count v > vals.count b then some v else best)
    none).getD 0

/-- `detect_recurrence(dates)`.  The source computes the mean interval in
floating point; it is modelled exactly in `ℚ` (for the band comparisons
the two agree for any realistic number of statement transactions). -/
def detect_recurrence (dates : List PyDate) :
    String × Option Nat × Option Nat :=
  if dates.length < 2 then ("ONETIME", none, none)
  else
    let dates := pySortBy dateLt dates
    let intervals := (dates.zip dates.tail).map
      (fun ab => dateDiffDays ab.2 ab.1)
    if intervals.isEmpty then ("ONETIME", none, none)
    else
      let avg_interval : ℚ := ((intervals.sum : Int) : ℚ) /
        (intervals.length : ℚ)
      if 5 ≤ avg_interval ∧ avg_interval ≤ 9 then
        ("WEEKLY", none, some (modeBy (dates.map pyWeekday)))
      else if 12 ≤ avg_interval ∧ avg_interval ≤ 16 then
        ("BIWEEKLY", none, some (modeBy (dates.map pyWeekday)))
      else if 25 ≤ avg_interval ∧ avg_interval ≤ 35 then
        ("MONTHLY", some (modeBy (dates.map (fun d => d.day))), none)
      else if 85 ≤ avg_interval ∧ avg_interval ≤ 100 then
        ("QUARTERLY", some (modeBy (dates.map (fun d => d.day))), none)
      else if 350 ≤ avg_interval ∧ avg_interval ≤ 380 then
        ("ANNUAL", some (dates.headD default).day, none)
      else
        ("MONTHLY", some (modeBy (dates.map (fun d => d.day))), none)

/-- Appending a transaction to its group (`defaultdict(list)` update,
insertion order preserved). -/
def addToGroup : List (List Char × List ParsedTransaction) → List Char →
    ParsedTransaction → List (List Char × List ParsedTransaction)
  | [], key, tx => [(key, [tx])]
  | (k, ts) :: rest, key, tx =>
    if k = key then (k, ts ++ [tx]) :: rest
    else (k, ts) :: addToGroup rest key tx

/-- `group_transactions(transactions)`: group by the normalized
description, dropping transactions whose key normalizes to the empty
string; groups keep dict insertion order, members keep input order. -/
def group_transactions (transactions : List ParsedTransaction) :
    List (List Char × List ParsedTransaction) :=
  transactions.foldl (fun groups tx =>
    let key := normalize_description tx.description
    if key.isEmpty then groups else addToGroup groups key tx) []

/-- `list(set(xs))` for the `original_descriptions` field: duplicates
removed; Python's set order is unspecified, modelled as first-occurrence
order. -/
def pySetList (l : List (List Char)) : List (List Char) :=
  l.foldl (fun acc v => if acc.contains v then acc else acc ++ [v]) []

/-- `Decimal(str(round(q, 2)))`: round to two decimal places with
round-half-to-even (Python's `round` on `Decimal`). -/
def roundHalfEven2 (q : ℚ) : ℚ :=
  let x := q * 100
  let fl := ⌊x⌋
  let frac := x - fl
  let n : ℤ :=
    if frac < 1/2 then fl
    else if 1/2 < frac then fl + 1
    else if fl % 2 = 0 then fl else fl + 1
  (n : ℚ) / 100

/-- `AnalyzedTransaction` (`app/schemas/import_statement.py`).  The `id`
field (a random `uuid4()` prefix used only for UI tracking) is omitted. -/
structure AnalyzedTransaction where
  original_descriptions : List (List Char)
  suggested_name : List Char
  category : String
  recurrence : String
  day_of_month : Option Nat
  day_of_week : Option Nat
  average_amount : ℚ
  currency : String
  confidence : ℚ
  occurrence_count : Nat
  date_range : DateRange
deriving DecidableEq, Repr

/-- `analyze_with_rules(transactions, currency)`.  Confidence
`min(0.9, 0.5 + len(txs)*0.1)` is modelled exactly in `ℚ`. -/
def analyze_with_rules (transactions : List ParsedTransaction)
    (currency : String) : List AnalyzedTransaction :=
  let groups := group_transactions transactions
  let results := groups.filterMap (fun kv =>
    let txs := kv.2
    if txs.length < 1 then none
    else
      let sample_desc := (txs.headD default).description
      let category := categorize_by_keywords sample_desc
      if category.isEmpty then none
      else if txs.length < 2 ∧ category = "OTHER" then none
      else
        let dates := txs.map (fun tx => tx.date)
        let r := detect_recurrence dates
        let amounts := txs.map (fun tx => tx.amount)
        let avg_amount : ℚ := amounts.sum / (amounts.length : ℚ)
        let sorted_dates := pySortBy dateLt dates
        let confidence : ℚ :=
          min (9/10) (1/2 + (txs.length : ℚ) * (1/10))
        some
          { original_descriptions :=
              pySetList (txs.map (fun tx => tx.original_description))
          , suggested_name := clean_merchant_name sample_desc
          , category := category
          , recurrence := r.1
          , day_of_month := r.2.1
          , day_of_week := r.2.2
          , average_amount := roundHalfEven2 avg_amount
          , currency := currency
          , confidence := confidence
          , occurrence_count := txs.length
          , date_range :=
              ⟨sorted_dates.headD default, sorted_dates.getLastD default⟩ })
  pySortBy (fun a b => b.confidence < a.confidence) results

end TransactionAnalyzer

/-! ## `app/services/claude_service.py` -/

namespace ClaudeService

/-- Python upper-casing (ASCII). -/
def pyUpper (s : List Char) : List Char := s.map upperChar

/-- A value of the incoming LLM JSON dict, at the granularity
`validate_analyzed_transaction` reads it.  Dynamic conversions are
modelled at the boundary: an absent key is `none`; for the integer day
fields `some none` stands for a present value on which `int()` raises
(leaving the field unset), likewise for an unconvertible `confidence`
(which falls back to 0.5).  String coercions (`str(...)`) are assumed
already applied, and `average_amount` is carried as the string
`str(item['average_amount'])` fed to `Decimal` (scientific-notation
strings, which `Decimal` would accept, are not modelled — no claim
depends on the amount's value). -/
structure LLMItem where
  suggested_name : Option (List Char)
  average_amount : Option (List Char)
  category : Option (List Char)
  recurrence : Option (List Char)
  confidence : Option (Option ℚ)
  day_of_month : Option (Option Int)
  day_of_week : Option (Option Int)
  original_descriptions_str : Option (List Char)
  original_descriptions_list : Option (List (List Char))
deriving DecidableEq, Repr

/-- `valid_categories`. -/
def VALID_CATEGORIES : List (List Char) :=
  [cl "LOAN", cl "SUBSCRIPTION", cl "INVESTMENT", cl "INSURANCE",
   cl "UTILITY", cl "OTHER"]

/-- `valid_recurrences`. -/
def VALID_RECURRENCES : List (List Char) :=
  [cl "MONTHLY", cl "WEEKLY", cl "BIWEEKLY", cl "QUARTERLY", cl "ANNUAL",
   cl "ONETIME"]

/-- The normalized dict returned by `validate_analyzed_transaction`. -/
structure ValidatedItem where
  original_descriptions : List (List Char)
  suggested_name : List Char
  category : String
  recurrence : String
  average_amount : ℚ
  confidence : ℚ
  day_of_month : Option Nat
  day_of_week : Option Nat
deriving DecidableEq, Repr

/-- `item.get('original_descriptions', [])` with the `str` → singleton and
non-list → `[]` coercions. -/
def coerceDescs (item : LLMItem) : List (List Char) :=
  match item.original_descriptions_str with
  | some s => [s]
  | none => (item.original_descriptions_list).getD []

/-- `validate_analyzed_transaction(item)`. -/
def validate_analyzed_transaction (item : LLMItem) : Option ValidatedItem :=
  match item.suggested_name with
  | none => none
  | some name =>
    if name.isEmpty then none
    else
      match item.average_amount with
      | none => none
      | some amt_str =>
        let categoryU := pyUpper (item.category.getD (cl "OTHER"))
        let category : String :=
          if VALID_CATEGORIES.contains categoryU then String.mk categoryU
          else "OTHER"
        let recurrenceU := pyUpper (item.recurrence.getD (cl "MONTHLY"))
        let recurrence : String :=
          if VALID_RECURRENCES.contains recurrenceU then String.mk recurrenceU
          else "MONTHLY"
        match decimalOfString amt_str with
        | none => none
        | some amount =>
          if amount ≤ 0 then none
          else
            let confidence : ℚ :=
              match item.confidence with
              | none => max 0 (min 1 (1/2))
              | some none => 1/2
              | some (some c) => max 0 (min 1 c)
            let dayPair : Option Nat × Option Nat :=
              if recurrence = "MONTHLY" ∨ recurrence = "QUARTERLY" ∨
                  recurrence = "ANNUAL" then
                (match item.day_of_month with
                 | some (some v) => some (max 1 (min 31 v)).toNat
                 | _ => none, none)
              else if recurrence = "WEEKLY" ∨ recurrence = "BIWEEKLY" then
                (none,
                 match item.day_of_week with
                 | some (some v) => some (max 0 (min 6 v)).toNat
                 | _ => none)
              else (none, none)
            some
              { original_descriptions := coerceDescs item
              , suggested_name := name.take 100
              , category := category
              , recurrence := recurrence
              , average_amount := amount
              , confidence := confidence
              , day_of_month := dayPair.1
              , day_of_week := dayPair.2 }

/-- `AIUsageStats` (telemetry; carried through unchanged). -/
structure AIUsageStats where
  model : List Char
  input_tokens : Nat
  output_tokens : Nat
  total_tokens : Nat
  cost_estimate : ℚ
deriving DecidableEq, Repr

end ClaudeService

namespace TransactionAnalyzer

/-- The outcome of the one AI call made by `analyze_transactions`
(`analyze_transactions_with_llm`, which validates each returned item):
either a raised `ClaudeUnavailableError`/`ClaudeError`, or a list of
validated items with usage telemetry.  The call itself is outbound
network I/O, outside the embedding's boundary. -/
inductive AIOutcome
  | failure
  | success (results : List ClaudeService.ValidatedItem)
      (usage : Option ClaudeService.AIUsageStats)
deriving DecidableEq, Repr

/-- `analyze_transactions(transactions, currency)` with the AI call's
outcome made an explicit argument. -/
def analyze_transactions (outcome : AIOutcome)
    (transactions : List ParsedTransaction) (currency : String) :
    List AnalyzedTransaction × Bool × Option ClaudeService.AIUsageStats :=
  if transactions.isEmpty then ([], false, none)
  else
    let groups := group_transactions transactions
    match outcome with
    | .failure => (analyze_with_rules transactions currency, true, none)
    | .success llm_results usage =>
      if llm_results.isEmpty then
        (analyze_with_rules transactions currency, true, usage)
      else
        let analyzed := llm_results.map (fun item =>
          let exact := item.original_descriptions.foldl
            (fun acc orig_desc =>
              let key := normalize_description orig_desc
              match groups.find? (fun kv => kv.1 = key) with
              | some kv => acc ++ kv.2
              | none => acc) []
          let matching_txs :=
            if !exact.isEmpty then exact
            else
              let fuzzy := groups.foldl (fun acc kv =>
                if item.original_descriptions.any (fun d =>
                    isSubstr (normalize_description d) kv.1 ||
                      isSubstr kv.1 (normalize_description d)) then
                  acc ++ kv.2
                else acc) []
              if !fuzzy.isEmpty then fuzzy else transactions.take 1
          let dates := pySortBy dateLt (matching_txs.map (fun tx => tx.date))
          { original_descriptions := item.original_descriptions
          , suggested_name := item.suggested_name
          , category := item.category
          , recurrence := item.recurrence
          , day_of_month := item.day_of_month
          , day_of_week := item.day_of_week
          , average_amount := item.average_amount
          , currency := currency
          , confidence := item.confidence
          , occurrence_count := matching_txs.length
          , date_range := ⟨dates.headD default, dates.getLastD default⟩ })
        (analyzed, false, usage)

/-- Next calendar month, used to state C7's "three consecutive months". -/
def nextMonth (y m : Nat) : Nat × Nat :=
  if m = 12 then (y + 1, 1) else (y, m + 1)

/-- The anchor invariant of C9, written from the spec's words:
`day_of_month` is populated only for MONTHLY/QUARTERLY/ANNUAL,
`day_of_week` only for WEEKLY/BIWEEKLY, and never both. -/
def anchorInvariant (recurrence : String)
    (day_of_month day_of_week : Option Nat) : Prop :=
  (day_of_month.isSome →
    recurrence = "MONTHLY" ∨ recurrence = "QUARTERLY" ∨
      recurrence = "ANNUAL") ∧
  (day_of_week.isSome → recurrence = "WEEKLY" ∨ recurrence = "BIWEEKLY") ∧
  ¬(day_of_month.isSome ∧ day_of_week.isSome)

end TransactionAnalyzer

/-! ## `app/services/pdf_parser.py` -/

namespace PdfParser

/-- `DATE_FORMATS` of `pdf_parser.py`, in source order (notably
`%m/%d/%y` first). -/
def DATE_FORMATS : List (List CsvParser.FTok) :=
  [ [.m, .lit '/', .d, .lit '/', .y]            -- '%m/%d/%y'
  , [.m, .lit '/', .d, .lit '/', .Y]            -- '%m/%d/%Y'
  , [.d, .lit '/', .m, .lit '/', .Y]            -- '%d/%m/%Y'
  , [.Y, .lit '-', .m, .lit '-', .d]            -- '%Y-%m-%d'
  , [.m, .lit '-', .d, .lit '-', .Y]            -- '%m-%d-%Y'
  , [.d, .lit '-', .m, .lit '-', .Y]            -- '%d-%m-%Y'
  , [.Y, .lit '/', .m, .lit '/', .d]            -- '%Y/%m/%d'
  , [.d, .lit ' ', .b, .lit ' ', .Y]            -- '%d %b %Y'
  , [.b, .lit ' ', .d, .lit ',', .lit ' ', .Y]  -- '%b %d, %Y'
  , [.d, .lit '-', .b, .lit '-', .Y]            -- '%d-%b-%Y'
  , [.d, .lit '/', .m, .lit '/', .y]            -- '%d/%m/%y'
  , [.b, .lit ' ', .d, .lit ' ', .Y]            -- '%b %d %Y'
  , [.d, .lit ' ', .B, .lit ' ', .Y] ]          -- '%d %B %Y'

/-- `parse_date` of `pdf_parser.py`: PDF format list plus the explicit
two-digit-year adjustment (`>50 → 1900+y`, else `2000+y`; dead for `%y`,
which `strptime` already maps to 1969..2068, but live for a `%Y` match of
a numerically small four-digit year). -/
def parse_date (date_str : List Char) : Option PyDate :=
  if date_str.isEmpty then none
  else
    let date_str := pyStrip date_str
    match DATE_FORMATS.findSome? (fun f => CsvParser.tryFormat f date_str) with
    | some d =>
      if d.year < 100 then
        if d.year > 50 then some ⟨1900 + d.year, d.month, d.day⟩
        else some ⟨2000 + d.year, d.month, d.day⟩
      else some d
    | none => none

/-- `parse_amount` of `pdf_parser.py`: its body is a verbatim copy of
`csv_parser.parse_amount` (the only difference, a `str(...)` coercion of
the argument, is a no-op on strings). -/
def parse_amount (amount_str : List Char) : Option ℚ :=
  CsvParser.parse_amount amount_str

/-- Matcher for `\s+DES:\w+` at the head of the string. -/
def matchDesAt (s : List Char) : Option Nat :=
  let ws := (s.takeWhile isSpace).length
  if ws ≥ 1 && ((s.drop ws).take 4) = cl "DES:" then
    let w := ((s.drop (ws + 4)).takeWhile isWord).length
    if w ≥ 1 then some (ws + 4 + w) else none
  else none

/-- Matcher for `\s+ID:[\w\d]+` (with `[\w\d] = \w`). -/
def matchIdAt (s : List Char) : Option Nat :=
  let ws := (s.takeWhile isSpace).length
  if ws ≥ 1 && ((s.drop ws).take 3) = cl "ID:" then
    let w := ((s.drop (ws + 3)).takeWhile isWord).length
    if w ≥ 1 then some (ws + 3 + w) else none
  else none

/-- Matcher for `\s+INDN:[\w\s]+` (the greedy class also crosses
whitespace). -/
def matchIndnAt (s : List Char) : Option Nat :=
  let ws := (s.takeWhile isSpace).length
  if ws ≥ 1 && ((s.drop ws).take 5) = cl "INDN:" then
    let w := ((s.drop (ws + 5)).takeWhile
      (fun c => isWord c || isSpace c)).length
    if w ≥ 1 then some (ws + 5 + w) else none
  else none

/-- Matcher for `\s+CO\s+ID:[\w\d]+`. -/
def matchCoIdAt (s : List Char) : Option Nat :=
  let ws := (s.takeWhile isSpace).length
  if ws ≥ 1 && ((s.drop ws).take 2) = cl "CO" then
    let s2 := s.drop (ws + 2)
    let ws2 := (s2.takeWhile isSpace).length
    if ws2 ≥ 1 && ((s2.drop ws2).take 3) = cl "ID:" then
      let w := ((s2.drop (ws2 + 3)).takeWhile isWord).length
      if w ≥ 1 then some (ws + 2 + ws2 + 3 + w) else none
    else none
  else none

/-- Matcher for `\s+(WEB|PPD|CCD)(\s|$)`: the trailing alternative
consumes one whitespace character when present, else matches the end
zero-width. -/
def matchWebAt (s : List Char) : Option Nat :=
  let ws := (s.takeWhile isSpace).length
  if ws ≥ 1 then
    let w3 := (s.drop ws).take 3
    if w3 = cl "WEB" || w3 = cl "PPD" || w3 = cl "CCD" then
      match s.drop (ws + 3) with
      | [] => some (ws + 3)
      | c :: _ => if isSpace c then some (ws + 3 + 1) else none
    else none
  else none

/-- Matcher for `\s+PMT\s+INFO:.*` (`.` stops at a newline). -/
def matchPmtAt (s : List Char) : Option Nat :=
  let ws := (s.takeWhile isSpace).length
  if ws ≥ 1 && ((s.drop ws).take 3) = cl "PMT" then
    let s2 := s.drop (ws + 3)
    let ws2 := (s2.takeWhile isSpace).length
    if ws2 ≥ 1 && ((s2.drop ws2).take 5) = cl "INFO:" then
      let tailLen := ((s2.drop (ws2 + 5)).takeWhile
        (fun c => c ≠ '\n')).length
      some (ws + 3 + ws2 + 5 + tailLen)
    else none
  else none

/-- Matcher for `\s+Conf#\s*\w+`. -/
def matchConfAt (s : List Char) : Option Nat :=
  let ws := (s.takeWhile isSpace).length
  if ws ≥ 1 && ((s.drop ws).take 5) = cl "Conf#" then
    let s2 := s.drop (ws + 5)
    let ws2 := (s2.takeWhile isSpace).length
    let w := ((s2.drop ws2).takeWhile isWord).length
    if w ≥ 1 then some (ws + 5 + ws2 + w) else none
  else none

/-- Matcher for `\d{10,}` (the greedy match removes the whole run). -/
def matchLongDigitsAt (s : List Char) : Option Nat :=
  let d := (s.takeWhile isDigit).length
  if d ≥ 10 then some d else none

/-- `clean_description(desc)`: the eight `re.sub` passes of
`pdf_parser.py`, in source order, then whitespace collapsing, strip and
truncation to 100 characters. -/
def clean_description (desc : List Char) : List Char :=
  let desc := reSubScan matchDesAt [' '] desc
  let desc := reSubScan matchIdAt [' '] desc
  let desc := reSubScan matchIndnAt [' '] desc
  let desc := reSubScan matchCoIdAt [' '] desc
  let desc := reSubScan matchWebAt [' '] desc
  let desc := reSubScan matchPmtAt [] desc
  let desc := reSubScan matchConfAt [] desc
  let desc := reSubScan matchLongDigitsAt [] desc
  let desc := pyStrip (collapseWs desc)
  desc.take 100

/-- `re.match(r'^(\d{1,2}/\d{1,2}/\d{2,4})\s+(.+)', line)`: on success
returns (group 1, group 2).  The digit runs must be maximal (a longer run
makes every alternative fail), the year run is two to four digits followed
by whitespace, and `.+` takes the non-empty remainder (backtracking one
whitespace character when the line ends in whitespace). -/
def matchDateStartAt (s : List Char) :
    Option (List Char × List Char) :=
  let r1l := (s.takeWhile isDigit).length
  if r1l = 0 || r1l > 2 then none
  else
    match s.drop r1l with
    | '/' :: rest1 =>
      let r2l := (rest1.takeWhile isDigit).length
      if r2l = 0 || r2l > 2 then none
      else
        match rest1.drop r2l with
        | '/' :: rest2 =>
          let r3l := (rest2.takeWhile isDigit).length
          if r3l < 2 || r3l > 4 then none
          else
            let afterDigits := rest2.drop r3l
            let wsl := (afterDigits.takeWhile isSpace).length
            if wsl = 0 then none
            else
              let rest := afterDigits.drop wsl
              let dateStr := s.take (r1l + 1 + r2l + 1 + r3l)
              if rest.isEmpty then
                if wsl ≥ 2 then some (dateStr, afterDigits.drop (wsl - 1))
                else none
              else some (dateStr, rest)
        | _ => none
    | _ => none

/-- `re.match(r'^\d{1,2}/\d{1,2}/\d{2,4}\s+', line)` (the lookahead stop
test). -/
def matchesDateStartWs (s : List Char) : Bool :=
  let r1l := (s.takeWhile isDigit).length
  if r1l = 0 || r1l > 2 then false
  else
    match s.drop r1l with
    | '/' :: rest1 =>
      let r2l := (rest1.takeWhile isDigit).length
      if r2l = 0 || r2l > 2 then false
      else
        match rest1.drop r2l with
        | '/' :: rest2 =>
          let r3l := (rest2.takeWhile isDigit).length
          if r3l < 2 || r3l > 4 then false
          else ((rest2.drop r3l).takeWhile isSpace).length ≥ 1
        | _ => false
    | _ => false

/-- `re.search(r'(-?[\d,]+\.\d{2})\s*$', s)`: the match is the longest
suffix of the whitespace-stripped string of the form
`-? [digits or commas]+ . dd`; returns (group 1, the prefix before the
match start, i.e. `s[:match.start()]`). -/
def searchAmountEnd (s : List Char) : Option (List Char × List Char) :=
  let r := s.reverse
  let r1 := r.drop (r.takeWhile isSpace).length
  match r1 with
  | a :: b :: '.' :: rest3 =>
    if isDigit a && isDigit b then
      let run := rest3.takeWhile (fun c => isDigit c || c = ',')
      if run.isEmpty then none
      else
        let rest4 := rest3.drop run.length
        let (neg, rest5) :=
          match rest4 with
          | '-' :: t => (true, t)
          | t => (false, t)
        some ((if neg then ['-'] else []) ++ run.reverse ++ ['.', b, a],
          rest5.reverse)
    else none
  | _ => none

/-- `re.match(r'^(-?[\d,]+\.\d{2})\s*$', line)`: a standalone amount
line. -/
def isStandaloneAmount (s : List Char) : Option (List Char) :=
  match searchAmountEnd s with
  | some (amt, []) => some amt
  | _ => none

/-- The `j` lookahead loop (lines 204-241 of the source): consume up to
five following lines as description continuation until a date line, an
empty line, a section word, a standalone amount or an amount-terminated
line. -/
def lookAhead : List Char → List (List Char) →
    List Char × Option (List Char)
  | desc, [] => (desc, none)
  | desc, l :: rest =>
    let next_line := pyStrip l
    if matchesDateStartWs next_line then (desc, none)
    else if next_line.isEmpty then (desc, none)
    else if [cl "total ", cl "continued", cl "service fee",
        cl "page "].any (fun x => isSubstr x (pyLower next_line)) then
      (desc, none)
    else
      match isStandaloneAmount next_line with
      | some amt => (desc, some amt)
      | none =>
        match searchAmountEnd next_line with
        | some (amt, prefixPart) =>
          let prefixPart := pyStrip prefixPart
          (if prefixPart.isEmpty then desc
            else desc ++ [' '] ++ prefixPart, some amt)
        | none => lookAhead (desc ++ [' '] ++ next_line) rest

/-- Processing of one (stripped, non-empty, non-header) line: the date
match, same-line or looked-ahead amount, date/amount parsing, the
debit test (negative sign, or inside the withdrawals section) and
description cleaning (lines 186-273 of the source). -/
def processLine (in_withdrawals : Bool) (line : List Char)
    (next5 : List (List Char)) : List ParsedTransaction :=
  match matchDateStartAt line with
  | none => []
  | some (date_str, rest) =>
    let (description, amount_str) :=
      match searchAmountEnd rest with
      | some (amt, prefixPart) => (pyStrip prefixPart, some amt)
      | none => lookAhead rest next5
    match parse_date date_str with
    | none => []
    | some date_val =>
      match amount_str with
      | none => []
      | some amt_s =>
        match parse_amount amt_s with
        | none => []
        | some amount =>
          if amount ≠ 0 then
            let is_debit := amount < 0 ∨ in_withdrawals
            let amount := |amount|
            if is_debit then
              let clean_desc := clean_description description
              if !clean_desc.isEmpty then
                [⟨date_val, clean_desc, amount, description.take 200⟩]
              else []
            else []
          else []

/-- The body of the `while i < len(lines)` loop of
`extract_transactions_from_text_regex`: the section state
(withdrawals/deposits) is updated by heading text, and every line is
visited as a potential transaction start (`i` advances by one even after
a lookahead). -/
def extractLoop (in_withdrawals in_deposits : Bool) :
    List (List Char) → List ParsedTransaction
  | [] => []
  | l :: rest =>
    let line := pyStrip l
    if line.isEmpty then extractLoop in_withdrawals in_deposits rest
    else
      let line_lower := pyLower line
      if isSubstr (cl "withdrawal") line_lower &&
          isSubstr (cl "subtraction") line_lower then
        extractLoop true false rest
      else if isSubstr (cl "deposit") line_lower &&
          isSubstr (cl "addition") line_lower then
        extractLoop false true rest
      else
        let st :=
          if isSubstr (cl "service fee") line_lower ||
              isSubstr (cl "total service") line_lower then
            (false, false)
          else (in_withdrawals, in_deposits)
        processLine st.1 line (rest.take 5) ++ extractLoop st.1 st.2 rest

/-- `extract_transactions_from_text_regex(text)`. -/
def extract_transactions_from_text_regex (text : List Char) :
    List ParsedTransaction :=
  extractLoop false false (pySplit '\n' text)

/-- The fatal `PDFParseError` cases reachable from this embedding's
boundary (the empty-content, unopenable/encrypted and zero-page checks
act on raw bytes through `pdfplumber` before the text exists). -/
inductive PDFError
  | noExtractableText   -- "Could not extract text from PDF. ..."
  | noTransactionsFound -- "No transactions found in PDF. ..."
deriving DecidableEq, Repr

/-- The warnings `parse_pdf` can append, by message. -/
inductive PDFWarning
  | extractedCount (n : Nat) -- "Extracted {n} transactions using text parsing"
  | attemptingTableExtraction -- "Attempting table extraction..."
  | usingAI                   -- "Using AI to extract transactions from PDF text"
  | llm (tag : Nat)           -- a warning produced by the AI extraction layer
deriving DecidableEq, Repr

/-- `str(cell or '')` for a `pdfplumber` table cell (`None` becomes the
empty string). -/
def cellStr (c : Option (List Char)) : List Char := c.getD []

/-- Layer 2 (lines 463-491): accept a table row whose first cell parses
as a date and whose last cell parses as a negative amount. -/
def tableLayer (tables : List (List (List (Option (List Char))))) :
    List ParsedTransaction :=
  tables.foldl (fun acc table =>
    table.foldl (fun acc row =>
      if row.length < 2 then acc
      else
        match parse_date (cellStr (row.headD none)) with
        | none => acc
        | some date_val =>
          let desc := pyStrip (cellStr (row.getD 1 none))
          let amount_str :=
            match row.getLastD none with
            | some c => if c.isEmpty then [] else pyStrip c
            | none => []
          match parse_amount amount_str with
          | some amount =>
            if amount < 0 then
              acc ++ [⟨date_val, clean_description desc, |amount|, desc⟩]
            else acc
          | none => acc) acc) []

/-- `parse_pdf(content)`, from the point where the document has been
opened and its text extracted: the layer-2 table rows and the layer-3
outcome of `extract_transactions_with_llm` (whose transactions and
warnings depend on the external AI call) are explicit arguments; the
minimum-text-length check is part of this boundary. -/
def parse_pdf (full_text : List Char)
    (tables : List (List (List (Option (List Char)))))
    (llmOutcome : List ParsedTransaction × List PDFWarning) :
    Except PDFError (List ParsedTransaction × List PDFWarning) :=
  if (pyStrip full_text).length < 50 then .error .noExtractableText
  else
    let layer1 := extract_transactions_from_text_regex full_text
    let warnings1 : List PDFWarning :=
      if !layer1.isEmpty then [.extractedCount layer1.length] else []
    if !layer1.isEmpty then
      .ok (pySortBy (fun a b => dateLt a.date b.date) layer1, warnings1)
    else
      let warnings2 := warnings1 ++
        (if !tables.isEmpty then [.attemptingTableExtraction] else [])
      let layer2 := tableLayer tables
      if !layer2.isEmpty then
        .ok (pySortBy (fun a b => dateLt a.date b.date) layer2, warnings2)
      else
        let warnings3 := (warnings2 ++ [.usingAI]) ++ llmOutcome.2
        if llmOutcome.1.isEmpty then .error .noTransactionsFound
        else
          .ok (pySortBy (fun a b => dateLt a.date b.date) llmOutcome.1,
            warnings3)

end PdfParser

deriving instance DecidableEq for Except

/-! # Theorems -/

/-- C1: for every recurring payment definition `d` and every date `x`, if
`x < d.start_date`, or `d.end_date` is set and `x > d.end_date`, then
`occurs(d, x) = false`, regardless of `d`'s recurrence type and anchors. -/
theorem C1_out_of_bounds_never_occurs (p : Recurrence.Payment) (x : PyDate)
    (h : dateLt x p.start_date = true ∨
      ∃ e, p.end_date = some e ∧ dateLt e x = true) :
    Recurrence.payment_occurs_on_date p x = false := by
  unfold Recurrence.payment_occurs_on_date
  rcases h with h | ⟨e, he, hlt⟩
  · simp [h]
  · simp [he, hlt]

/-- C1 witness: a MONTHLY payment starting 2024-01-01 does not occur on
2023-12-31. -/
theorem C1_witness :
    Recurrence.payment_occurs_on_date
      { recurrence := "MONTHLY", day_of_month := some 15, day_of_week := none,
        start_date := ⟨2024, 1, 1⟩, end_date := none } ⟨2023, 12, 31⟩ = false :=
  C1_out_of_bounds_never_occurs _ _ (Or.inl (by decide))

/-- C2: for every MONTHLY definition whose anchor day is `a` (or the start
date's day when no anchor is set) and every in-bounds date `x`, the payment
occurs on `x` iff `x`'s day equals `min(a, number of days in x's month)`. -/
theorem C2_monthly_clamps_anchor (p : Recurrence.Payment) (x : PyDate)
    (hrec : p.recurrence = "MONTHLY")
    (hdom : ∀ a, p.day_of_month = some a → 1 ≤ a)
    (hlow : dateLt x p.start_date = false)
    (hhigh : ∀ e, p.end_date = some e → dateLt e x = false) :
    (Recurrence.payment_occurs_on_date p x = true ↔
      x.day = min (p.day_of_month.getD p.start_date.day)
        (daysInMonth x.year x.month)) := by
  have horel : Recurrence.orDefault p.day_of_month p.start_date.day
      = p.day_of_month.getD p.start_date.day := by
    cases hdm : p.day_of_month with
    | none => rfl
    | some a =>
      have ha : a ≠ 0 := by have := hdom a hdm; omega
      simp [Recurrence.orDefault, ha]
  unfold Recurrence.payment_occurs_on_date
  cases hed : p.end_date with
  | none =>
    simp [hlow, hrec, horel, Recurrence.get_last_day_of_month]
  | some e =>
    simp [hlow, hrec, horel, Recurrence.get_last_day_of_month, hhigh e hed]

/-- C2 witness: MONTHLY with anchor 31 occurs on 2024-04-30 (April has
30 days, so the anchor is clamped to 30). -/
theorem C2_witness :
    Recurrence.payment_occurs_on_date
      { recurrence := "MONTHLY", day_of_month := some 31, day_of_week := none,
        start_date := ⟨2024, 1, 1⟩, end_date := none } ⟨2024, 4, 30⟩ = true :=
  (C2_monthly_clamps_anchor _ _ rfl
    (fun a ha => by injection ha with h; omega)
    (by decide) (by intro e he; simp at he)).mpr (by decide)

/-- C3: for every ANNUAL definition whose start month is February and whose
effective anchor day (`day_of_month or start_date.day`) is 29, an in-bounds
date `x` is an occurrence iff `x` is the last day of February of `x`'s
year: Feb-28 in non-leap years, Feb-29 in leap years, never Mar-1. -/
theorem C3_annual_feb29_last_of_february (p : Recurrence.Payment) (x : PyDate)
    (hrec : p.recurrence = "ANNUAL")
    (hm : p.start_date.month = 2)
    (hdom : Recurrence.orDefault p.day_of_month p.start_date.day = 29)
    (hlow : dateLt x p.start_date = false)
    (hhigh : ∀ e, p.end_date = some e → dateLt e x = false) :
    (Recurrence.payment_occurs_on_date p x = true ↔
      x.month = 2 ∧ x.day = daysInMonth x.year 2) := by
  unfold Recurrence.payment_occurs_on_date
  cases hed : p.end_date with
  | none =>
    simp [hlow, hrec, hm, hdom, Recurrence.get_last_day_of_month]
  | some e =>
    simp [hlow, hrec, hm, hdom, Recurrence.get_last_day_of_month, hhigh e hed]

/-- C3 witness: ANNUAL starting 2024-02-29 (no explicit anchor, so the
anchor is the start date's day, 29) occurs on 2025-02-28, the last day of
February in the non-leap year 2025. -/
theorem C3_witness :
    Recurrence.payment_occurs_on_date
      { recurrence := "ANNUAL", day_of_month := none, day_of_week := none,
        start_date := ⟨2024, 2, 29⟩, end_date := none } ⟨2025, 2, 28⟩ = true :=
  (C3_annual_feb29_last_of_february _ _ rfl rfl (by decide) (by decide)
    (by intro e he; simp at he)).mpr (by decide)

/-! ### CSV parser claims -/

theorem pySplit_ne_nil (sep : Char) (l : List Char) : pySplit sep l ≠ [] := by
  induction l with
  | nil => simp [pySplit]
  | cons c cs ih =>
    by_cases hc : c = sep
    · simp [pySplit, hc]
    · simp only [pySplit, if_neg hc]
      cases h : pySplit sep cs with
      | nil => exact absurd h ih
      | cons p ps => simp

theorem pySplit_length (sep : Char) (l : List Char) :
    (pySplit sep l).length = l.count sep + 1 := by
  induction l with
  | nil => simp [pySplit]
  | cons c cs ih =>
    by_cases hc : c = sep
    · simp [pySplit, hc, List.count_cons, ih]
    · cases h : pySplit sep cs with
      | nil => exact absurd h (pySplit_ne_nil sep cs)
      | cons p ps =>
        rw [h] at ih
        simp only [pySplit, if_neg hc, h, List.length_cons] at ih ⊢
        simp [List.count_cons, hc, ih]

theorem pySplit_count_zero (sep : Char) (l : List Char) (h : l.count sep = 0) :
    pySplit sep l = [l] := by
  induction l with
  | nil => rfl
  | cons c cs ih =>
    rw [List.count_cons] at h
    have hc : c ≠ sep := by
      intro e; subst e; simp at h
    have hcs : cs.count sep = 0 := by
      rcases Nat.add_eq_zero.mp h with ⟨h1, _⟩
      exact h1
    simp only [pySplit, if_neg hc, ih hcs]

theorem pySplit_second (sep : Char) (l : List Char) (h : l.count sep = 1) :
    (pySplit sep l).getD 1 [] = (l.dropWhile (fun c => c ≠ sep)).tail := by
  induction l with
  | nil => simp at h
  | cons c cs ih =>
    rw [List.count_cons] at h
    by_cases hc : c = sep
    · subst hc
      have hcs : cs.count c = 0 := by simp at h; omega
      simp [pySplit, pySplit_count_zero c cs hcs, List.dropWhile]
    · have hcs : cs.count sep = 1 := by
        simp [hc] at h; simpa using h
      cases hps : pySplit sep cs with
      | nil => exact absurd hps (pySplit_ne_nil sep cs)
      | cons p ps =>
        rw [hps] at ih
        simp only [pySplit, if_neg hc, hps, List.dropWhile, hc]
        simpa [hc] using ih hcs

theorem map_if_eq_self (d : Char) (l : List Char) :
    l.map (fun c => if c = d then d else c) = l := by
  induction l with
  | nil => rfl
  | cons c cs ih =>
    by_cases hc : c = d <;> simp [hc, ih]

unseal Rat.add Rat.mul Rat.inv Rat.sub in
/-- C5: a CSV with headers `Date, Description, Debit, Credit` and the row
`2024-01-15, NETFLIX.COM, 15.99,` yields exactly one transaction
`{date: 2024-01-15, amount: 15.99}`; the same row with 15.99 under
`Credit` and an empty `Debit` yields zero transactions (surfaced as the
`No valid transactions found in CSV` error). -/
theorem C5_csv_debit_credit_rows :
    CsvParser.parse_csv
      [[cl "Date", cl " Description", cl " Debit", cl " Credit"],
       [cl "2024-01-15", cl " NETFLIX.COM", cl " 15.99", cl ""]]
      = .ok ([⟨⟨2024, 1, 15⟩, cl "NETFLIX.COM", 1599 / 100, cl "NETFLIX.COM"⟩],
        []) ∧
    CsvParser.parse_csv
      [[cl "Date", cl " Description", cl " Debit", cl " Credit"],
       [cl "2024-01-15", cl " NETFLIX.COM", cl "", cl " 15.99"]]
      = .error .noValidTransactions := by
  constructor <;> decide

unseal Rat.add Rat.mul Rat.inv Rat.sub in
theorem amount_example_us :
    CsvParser.parse_amount (cl "1,234.56") = some (1234 + 56 / 100) := by
  decide

unseal Rat.add Rat.mul Rat.inv Rat.sub in
theorem amount_example_eu :
    CsvParser.parse_amount (cl "1.234,56") = some (1234 + 56 / 100) := by
  decide

/-- C6: `parse_amount` disambiguates locale separators: with both `,` and
`.` present, the later-occurring one becomes the decimal point and the
other is stripped; with only `,` present, the comma is the decimal point
exactly when it is unique and followed by at most two characters,
otherwise a thousands separator; `1,234.56` and `1.234,56` both parse to
1234.56. -/
theorem C6_amount_separator_disambiguation :
    (∀ s, s ≠ [] →
      (CsvParser.cleanAmount s).contains ',' = true →
      (CsvParser.cleanAmount s).contains '.' = true →
      CsvParser.parse_amount s =
        decimalOfString (CsvParser.specBothSepsNormalize
          (CsvParser.cleanAmount s))) ∧
    (∀ s, s ≠ [] →
      (CsvParser.cleanAmount s).contains ',' = true →
      (CsvParser.cleanAmount s).contains '.' = false →
      CsvParser.parse_amount s =
        decimalOfString
          (if CsvParser.specCommaIsDecimal (CsvParser.cleanAmount s) then
            pyReplaceChar ',' '.' (CsvParser.cleanAmount s)
          else removeChar ',' (CsvParser.cleanAmount s))) ∧
    CsvParser.parse_amount (cl "1,234.56") = some (1234 + 56 / 100) ∧
    CsvParser.parse_amount (cl "1.234,56") = some (1234 + 56 / 100) := by
  have hex1 : CsvParser.parse_amount (cl "1,234.56") = some (1234 + 56 / 100) :=
    amount_example_us
  have hex2 : CsvParser.parse_amount (cl "1.234,56") = some (1234 + 56 / 100) :=
    amount_example_eu
  refine ⟨?_, ?_, hex1, hex2⟩
  · intro s hs hcomma hdot
    have hse : s.isEmpty = false := by
      cases s with
      | nil => exact absurd rfl hs
      | cons a l => rfl
    have hce : (CsvParser.cleanAmount s).isEmpty = false := by
      cases h : CsvParser.cleanAmount s with
      | nil => rw [h] at hcomma; simp at hcomma
      | cons a l => rfl
    simp only [CsvParser.parse_amount, hse, Bool.false_eq_true, if_false,
      hce, hcomma, hdot, Bool.and_self, if_true]
    by_cases hr : pyRfind (CsvParser.cleanAmount s) ',' >
        pyRfind (CsvParser.cleanAmount s) '.'
    · simp [hr, CsvParser.specBothSepsNormalize, pyReplaceChar]
    · simp [hr, CsvParser.specBothSepsNormalize, map_if_eq_self]
  · intro s hs hcomma hdot
    have hse : s.isEmpty = false := by
      cases s with
      | nil => exact absurd rfl hs
      | cons a l => rfl
    have hce : (CsvParser.cleanAmount s).isEmpty = false := by
      cases h : CsvParser.cleanAmount s with
      | nil => rw [h] at hcomma; simp at hcomma
      | cons a l => rfl
    simp only [CsvParser.parse_amount, hse, Bool.false_eq_true, if_false,
      hce, hcomma, hdot, Bool.true_and, Bool.and_false, if_true]
    have hlen2 : decide ((pySplit ',' (CsvParser.cleanAmount s)).length = 2)
        = decide ((CsvParser.cleanAmount s).count ',' = 1) := by
      apply decide_eq_decide.mpr
      rw [pySplit_length]
      omega
    by_cases h1 : (CsvParser.cleanAmount s).count ',' = 1
    · have hsecond := pySplit_second ',' (CsvParser.cleanAmount s) h1
      unfold CsvParser.specCommaIsDecimal
      rw [hlen2, hsecond]
    · unfold CsvParser.specCommaIsDecimal
      rw [hlen2]
      simp [h1]

/-- C6 witness: a concrete both-separators amount follows the spec-side
normalization. -/
theorem C6_witness :
    CsvParser.parse_amount (cl "9.876,5") =
      decimalOfString (CsvParser.specBothSepsNormalize
        (CsvParser.cleanAmount (cl "9.876,5"))) :=
  C6_amount_separator_disambiguation.1 (cl "9.876,5")
    (by decide) (by decide) (by decide)

theorem finalizeAmount_pos (ha hdc : Bool) (a : ℚ) (h : 0 < a) :
    CsvParser.finalizeAmount ha hdc a = a := by
  unfold CsvParser.finalizeAmount
  split
  · next hcond =>
    simp only [Bool.and_eq_true, decide_eq_true_eq] at hcond
    linarith [hcond.2]
  · rfl

/-- C10: with a unified amount column and no debit/credit columns, every
row whose amount is missing or parses non-positive is skipped (and counted
in `skipped_count`); every emitted transaction has a strictly positive
amount, so the branch replacing a negative amount by its absolute value
(`finalizeAmount`) is unreachable — it is the identity on every value the
guard lets through. -/
theorem C10_unified_nonpositive_rows_skipped :
    (∀ (cols : CsvParser.DetectedColumns) (row : List (List Char)),
      cols.amount.isSome = true → cols.debit = none → cols.credit = none →
      (CsvParser.parse_amount (row.getD (cols.amount.getD 0) []) = none ∨
        ∃ q, CsvParser.parse_amount (row.getD (cols.amount.getD 0) []) =
          some q ∧ q ≤ 0) →
      CsvParser.processRow cols row = .skipCounted) ∧
    (∀ (ha hdc : Bool) (a : ℚ), 0 < a →
      CsvParser.finalizeAmount ha hdc a = a) ∧
    (∀ (cols : CsvParser.DetectedColumns) (row : List (List Char))
      (t : ParsedTransaction),
      CsvParser.processRow cols row = .emit t → 0 < t.amount) := by
  refine ⟨?_, finalizeAmount_pos, ?_⟩
  · intro cols row hA hD hC hamt
    simp only [CsvParser.processRow]
    split
    · rfl
    · split
      · rfl
      · split
        · rfl
        · simp only [hA, if_true, hD, hC, Bool.not_true, Bool.false_and,
            Bool.false_eq_true, if_false, Option.isSome_none]
          split
          · rfl
          · next amount hsome =>
            rcases hamt with hnone | ⟨q, hq, hq0⟩
            · rw [hnone] at hsome
              cases hsome
            · rw [hq] at hsome
              have hq' : amount = q := (Option.some.inj hsome).symm
              subst hq'
              simp [hq0]
  · intro cols row t hemit
    simp only [CsvParser.processRow] at hemit
    repeat' split at hemit
    any_goals exact CsvParser.RowOutcome.noConfusion hemit
    all_goals
      rename_i amount heq hle
    all_goals
      have h0 : (0 : ℚ) < amount := lt_of_not_le hle
    all_goals
      have ht := CsvParser.RowOutcome.emit.inj hemit
    all_goals
      subst ht
    all_goals
      simp [CsvParser.emitStep, finalizeAmount_pos _ _ _ h0, h0]

-- C10 witness: a negative unified-column amount row is skipped.
unseal Rat.add Rat.mul Rat.inv Rat.sub in
theorem C10_witness :
    CsvParser.processRow ⟨some 0, some 1, some 2, none, none⟩
      [cl "2024-01-15", cl "NETFLIX.COM", cl "-5.00"] = .skipCounted :=
  C10_unified_nonpositive_rows_skipped.1 _ _ (by decide) rfl rfl
    (Or.inr ⟨-5, by decide, by norm_num⟩)

/-! ### Analyzer claims -/

/-- C4: when the AI call fails with an availability error, or succeeds but
yields zero validated candidates, `analyze_transactions` on a non-empty
input returns the rule-based result for the same input with
`used_fallback = true`; in particular the result is non-empty whenever the
rule-based classifier finds at least one candidate. -/
theorem C4_ai_failure_falls_back (txs : List ParsedTransaction)
    (currency : String) (outcome : TransactionAnalyzer.AIOutcome)
    (hne : txs ≠ [])
    (h : outcome = .failure ∨ ∃ u, outcome = .success [] u) :
    (TransactionAnalyzer.analyze_transactions outcome txs currency).1 =
      TransactionAnalyzer.analyze_with_rules txs currency ∧
    (TransactionAnalyzer.analyze_transactions outcome txs currency).2.1 =
      true ∧
    (TransactionAnalyzer.analyze_with_rules txs currency ≠ [] →
      (TransactionAnalyzer.analyze_transactions outcome txs currency).1 ≠
        []) := by
  have hne' : txs.isEmpty = false := by
    cases txs with
    | nil => exact absurd rfl hne
    | cons a l => rfl
  rcases h with h | ⟨u, h⟩ <;> subst h <;>
    simp [TransactionAnalyzer.analyze_transactions, hne']

-- C4 witness at a singleton transaction list and a failing AI call.
theorem C4_witness :
    (TransactionAnalyzer.analyze_transactions .failure
      [⟨⟨2024, 1, 15⟩, cl "NETFLIX.COM", 1599 / 100, cl "NETFLIX.COM"⟩]
      "USD").1 =
      TransactionAnalyzer.analyze_with_rules
        [⟨⟨2024, 1, 15⟩, cl "NETFLIX.COM", 1599 / 100, cl "NETFLIX.COM"⟩]
        "USD" ∧
    (TransactionAnalyzer.analyze_transactions .failure
      [⟨⟨2024, 1, 15⟩, cl "NETFLIX.COM", 1599 / 100, cl "NETFLIX.COM"⟩]
      "USD").2.1 = true ∧
    (TransactionAnalyzer.analyze_with_rules
        [⟨⟨2024, 1, 15⟩, cl "NETFLIX.COM", 1599 / 100, cl "NETFLIX.COM"⟩]
        "USD" ≠ [] →
      (TransactionAnalyzer.analyze_transactions .failure
        [⟨⟨2024, 1, 15⟩, cl "NETFLIX.COM", 1599 / 100, cl "NETFLIX.COM"⟩]
        "USD").1 ≠ []) :=
  C4_ai_failure_falls_back _ _ _ (by simp) (Or.inl rfl)

theorem mem_insertSorted {α : Type} (lt : α → α → Bool) (x a : α)
    (l : List α) : a ∈ insertSorted lt x l ↔ a = x ∨ a ∈ l := by
  induction l with
  | nil => simp [insertSorted]
  | cons y ys ih =>
    simp only [insertSorted]
    split
    · simp [List.mem_cons]
      try tauto
    · simp [List.mem_cons, ih]
      try tauto

theorem mem_pySortBy {α : Type} (lt : α → α → Bool) (a : α) (l : List α) :
    a ∈ pySortBy lt l ↔ a ∈ l := by
  suffices h : ∀ acc : List α,
      a ∈ l.foldl (fun acc x => insertSorted lt x acc) acc ↔
        a ∈ acc ∨ a ∈ l by
    simpa [pySortBy] using h []
  induction l with
  | nil => simp
  | cons x xs ih =>
    intro acc
    simp only [List.foldl_cons, ih, mem_insertSorted, List.mem_cons]
    tauto

theorem detect_recurrence_anchor_shape (dates : List PyDate) :
    TransactionAnalyzer.anchorInvariant
      (TransactionAnalyzer.detect_recurrence dates).1
      (TransactionAnalyzer.detect_recurrence dates).2.1
      (TransactionAnalyzer.detect_recurrence dates).2.2 := by
  simp only [TransactionAnalyzer.detect_recurrence]
  repeat' split
  all_goals simp [TransactionAnalyzer.anchorInvariant]

theorem analyze_with_rules_anchor_shape (txs : List ParsedTransaction)
    (currency : String) (c : TransactionAnalyzer.AnalyzedTransaction)
    (hc : c ∈ TransactionAnalyzer.analyze_with_rules txs currency) :
    TransactionAnalyzer.anchorInvariant c.recurrence c.day_of_month
      c.day_of_week := by
  simp only [TransactionAnalyzer.analyze_with_rules] at hc
  rw [mem_pySortBy, List.mem_filterMap] at hc
  obtain ⟨kv, hmem, hkv⟩ := hc
  revert hkv
  repeat' split
  all_goals intro hkv
  all_goals first
    | exact Option.noConfusion hkv
    | (injection hkv with h
       subst h
       exact detect_recurrence_anchor_shape _)

theorem validate_anchor_shape (item : ClaudeService.LLMItem)
    (v : ClaudeService.ValidatedItem)
    (hv : ClaudeService.validate_analyzed_transaction item = some v) :
    TransactionAnalyzer.anchorInvariant v.recurrence v.day_of_month
      v.day_of_week := by
  revert hv
  simp only [ClaudeService.validate_analyzed_transaction]
  repeat' split
  all_goals intro hv
  all_goals first
    | exact Option.noConfusion hv
    | (injection hv with h
       subst h
       simp_all [TransactionAnalyzer.anchorInvariant])

/-- C9: every candidate of the rule-based path, every validated AI item,
and every candidate `analyze_transactions` builds from validated items,
has `day_of_month` only for MONTHLY/QUARTERLY/ANNUAL, `day_of_week` only
for WEEKLY/BIWEEKLY, and never both anchors. -/
theorem C9_anchor_mutual_exclusion :
    (∀ (txs : List ParsedTransaction) (currency : String)
       (c : TransactionAnalyzer.AnalyzedTransaction),
      c ∈ TransactionAnalyzer.analyze_with_rules txs currency →
      TransactionAnalyzer.anchorInvariant c.recurrence c.day_of_month
        c.day_of_week) ∧
    (∀ (item : ClaudeService.LLMItem) (v : ClaudeService.ValidatedItem),
      ClaudeService.validate_analyzed_transaction item = some v →
      TransactionAnalyzer.anchorInvariant v.recurrence v.day_of_month
        v.day_of_week) ∧
    (∀ (outcome : TransactionAnalyzer.AIOutcome)
       (txs : List ParsedTransaction) (currency : String),
      (∀ items usage,
        outcome = TransactionAnalyzer.AIOutcome.success items usage →
        ∀ i ∈ items,
          TransactionAnalyzer.anchorInvariant i.recurrence i.day_of_month
            i.day_of_week) →
      ∀ c ∈ (TransactionAnalyzer.analyze_transactions outcome txs
        currency).1,
        TransactionAnalyzer.anchorInvariant c.recurrence c.day_of_month
          c.day_of_week) := by
  refine ⟨analyze_with_rules_anchor_shape, validate_anchor_shape, ?_⟩
  intro outcome txs currency hitems c hc
  simp only [TransactionAnalyzer.analyze_transactions] at hc
  split at hc
  · simp at hc
  · split at hc
    · exact analyze_with_rules_anchor_shape _ _ _ (by simpa using hc)
    · next items usage =>
      split at hc
      · exact analyze_with_rules_anchor_shape _ _ _ (by simpa using hc)
      · simp only [List.mem_map] at hc
        obtain ⟨item, hmemi, hbuild⟩ := hc
        have hinv := hitems items usage rfl item hmemi
        subst hbuild
        exact hinv

theorem dateLt_asymm (a b : PyDate) (h : dateLt a b = true) :
    dateLt b a = false := by
  simp only [dateLt, Bool.or_eq_true, Bool.and_eq_true, decide_eq_true_eq]
    at h ⊢
  simp only [Bool.or_eq_false_iff, Bool.and_eq_false_iff,
    decide_eq_false_iff_not]
  omega

theorem dateLt_trans (a b c : PyDate) (h1 : dateLt a b = true)
    (h2 : dateLt b c = true) : dateLt a c = true := by
  simp only [dateLt, Bool.or_eq_true, Bool.and_eq_true, decide_eq_true_eq]
    at h1 h2 ⊢
  omega

theorem pySortBy_three {α : Type} (lt : α → α → Bool) (a b c : α)
    (hba : lt b a = false) (hca : lt c a = false) (hcb : lt c b = false) :
    pySortBy lt [a, b, c] = [a, b, c] := by
  simp [pySortBy, insertSorted, hba, hca, hcb]

theorem nextMonth_bounds (y m : Nat) (hy : 1 ≤ y) (hm1 : 1 ≤ m)
    (hm2 : m ≤ 12) :
    1 ≤ (TransactionAnalyzer.nextMonth y m).1 ∧ 1 ≤ (TransactionAnalyzer.nextMonth y m).2 ∧
      (TransactionAnalyzer.nextMonth y m).2 ≤ 12 := by
  unfold TransactionAnalyzer.nextMonth
  split <;> omega

theorem daysInMonth_bounds (y m : Nat) (hm1 : 1 ≤ m) (hm2 : m ≤ 12) :
    28 ≤ daysInMonth y m ∧ daysInMonth y m ≤ 31 := by
  interval_cases m <;> simp only [daysInMonth] <;> (try split) <;> omega

theorem dateLt_nextMonth15 (y m : Nat) (_hm2 : m ≤ 12) :
    dateLt ⟨y, m, 15⟩ ⟨(TransactionAnalyzer.nextMonth y m).1, (TransactionAnalyzer.nextMonth y m).2, 15⟩ = true := by
  unfold TransactionAnalyzer.nextMonth
  split <;> simp [dateLt]

theorem isLeapYear_iff (y : Nat) :
    isLeapYear y = true ↔ ((y % 4 = 0 ∧ y % 100 ≠ 0) ∨ y % 400 = 0) := by
  simp [isLeapYear]

set_option maxHeartbeats 1000000 in
theorem daysBeforeYear_succ (y : Nat) (hy : 1 ≤ y) :
    daysBeforeYear (y + 1) =
      daysBeforeYear y + 365 + (if isLeapYear y then 1 else 0) := by
  by_cases hL : (y % 4 = 0 ∧ y % 100 ≠ 0) ∨ y % 400 = 0
  · rw [if_pos ((isLeapYear_iff y).mpr hL)]
    unfold daysBeforeYear
    omega
  · rw [if_neg (fun h => hL ((isLeapYear_iff y).mp h))]
    unfold daysBeforeYear
    omega

theorem toordinal_nextMonth (y m d : Nat) (hy : 1 ≤ y) (hm1 : 1 ≤ m)
    (hm2 : m ≤ 12) :
    dateDiffDays ⟨(TransactionAnalyzer.nextMonth y m).1,
        (TransactionAnalyzer.nextMonth y m).2, d⟩ ⟨y, m, d⟩ =
      (daysInMonth y m : Int) := by
  by_cases h12 : m = 12
  · subst h12
    rw [show TransactionAnalyzer.nextMonth y 12 = (y + 1, 1) from rfl]
    dsimp only
    simp only [dateDiffDays, toordinal, daysBeforeMonth, daysInMonth,
      daysBeforeYear_succ y hy]
    cases hL : isLeapYear y <;>
      simp only [hL, if_true, if_false, Bool.false_eq_true] <;>
      omega
  · have hm12 : m < 12 := by omega
    simp only [TransactionAnalyzer.nextMonth, if_neg h12, dateDiffDays,
      toordinal]
    interval_cases m <;>
      cases hL : isLeapYear y <;>
        simp only [daysBeforeMonth, daysInMonth, hL, if_true, if_false,
          Bool.false_eq_true] <;>
        omega

theorem avg2_band (X : ℚ) (h1 : 56 ≤ X) (h2 : X ≤ 62) :
    ¬(5 ≤ X / 2 ∧ X / 2 ≤ 9) ∧ ¬(12 ≤ X / 2 ∧ X / 2 ≤ 16) ∧
      (25 ≤ X / 2 ∧ X / 2 ≤ 35) := by
  refine ⟨?_, ?_, ?_, ?_⟩
  · rintro ⟨_, hb⟩
    rw [div_le_iff₀ (by norm_num)] at hb
    linarith
  · rintro ⟨_, hb⟩
    rw [div_le_iff₀ (by norm_num)] at hb
    linarith
  · rw [le_div_iff₀ (by norm_num)]
    linarith
  · rw [div_le_iff₀ (by norm_num)]
    linarith

/-- C7: three transactions dated the 15th of three consecutive months
that normalize to one non-empty grouping key are detected as MONTHLY with
day-of-month anchor 15 (the mean consecutive-day interval lies in the
inclusive [25,35] band), and every candidate the rule-based analysis
produces from them has confidence strictly greater than 0.5. -/
theorem C7_three_consecutive_fifteenths
    (t1 t2 t3 : ParsedTransaction) (currency : String) (y m : Nat)
    (hy : 1 ≤ y) (hm1 : 1 ≤ m) (hm2 : m ≤ 12)
    (hd1 : t1.date = ⟨y, m, 15⟩)
    (hd2 : t2.date = ⟨(TransactionAnalyzer.nextMonth y m).1,
      (TransactionAnalyzer.nextMonth y m).2, 15⟩)
    (hd3 : t3.date = ⟨(TransactionAnalyzer.nextMonth
        (TransactionAnalyzer.nextMonth y m).1
        (TransactionAnalyzer.nextMonth y m).2).1,
      (TransactionAnalyzer.nextMonth (TransactionAnalyzer.nextMonth y m).1
        (TransactionAnalyzer.nextMonth y m).2).2, 15⟩)
    (hk2 : TransactionAnalyzer.normalize_description t2.description =
      TransactionAnalyzer.normalize_description t1.description)
    (hk3 : TransactionAnalyzer.normalize_description t3.description =
      TransactionAnalyzer.normalize_description t1.description)
    (hkne : TransactionAnalyzer.normalize_description t1.description ≠ []) :
    TransactionAnalyzer.detect_recurrence [t1.date, t2.date, t3.date] =
      ("MONTHLY", some 15, none) ∧
    ∀ c ∈ TransactionAnalyzer.analyze_with_rules [t1, t2, t3] currency,
      c.recurrence = "MONTHLY" ∧ c.day_of_month = some 15 ∧
        (1 / 2 : ℚ) < c.confidence := by
  obtain ⟨hy2, hm21, hm22⟩ := nextMonth_bounds y m hy hm1 hm2
  have h12 : dateLt t1.date t2.date = true := by
    rw [hd1, hd2]
    exact dateLt_nextMonth15 y m hm2
  have h23 : dateLt t2.date t3.date = true := by
    rw [hd2, hd3]
    exact dateLt_nextMonth15 _ _ hm22
  have h13 := dateLt_trans _ _ _ h12 h23
  have hsort : pySortBy dateLt [t1.date, t2.date, t3.date] =
      [t1.date, t2.date, t3.date] :=
    pySortBy_three _ _ _ _ (dateLt_asymm _ _ h12) (dateLt_asymm _ _ h13)
      (dateLt_asymm _ _ h23)
  have hi1 : dateDiffDays t2.date t1.date = (daysInMonth y m : Int) := by
    rw [hd1, hd2]
    exact toordinal_nextMonth y m 15 hy hm1 hm2
  have hi2 : dateDiffDays t3.date t2.date =
      (daysInMonth (TransactionAnalyzer.nextMonth y m).1
        (TransactionAnalyzer.nextMonth y m).2 : Int) := by
    rw [hd2, hd3]
    exact toordinal_nextMonth _ _ 15 hy2 hm21 hm22
  have hb1 := daysInMonth_bounds y m hm1 hm2
  have hb2 := daysInMonth_bounds (TransactionAnalyzer.nextMonth y m).1
    (TransactionAnalyzer.nextMonth y m).2 hm21 hm22
  have hX1 : (56 : ℚ) ≤
      ((dateDiffDays t2.date t1.date + dateDiffDays t3.date t2.date :
        Int) : ℚ) := by
    rw [hi1, hi2]
    have h : (56 : Int) ≤ (daysInMonth y m : Int) +
        (daysInMonth (TransactionAnalyzer.nextMonth y m).1
          (TransactionAnalyzer.nextMonth y m).2 : Int) := by
      omega
    exact_mod_cast h
  have hX2 : ((dateDiffDays t2.date t1.date + dateDiffDays t3.date t2.date :
      Int) : ℚ) ≤ 62 := by
    rw [hi1, hi2]
    have h : (daysInMonth y m : Int) +
        (daysInMonth (TransactionAnalyzer.nextMonth y m).1
          (TransactionAnalyzer.nextMonth y m).2 : Int) ≤ (62 : Int) := by
      omega
    exact_mod_cast h
  have hband := avg2_band _ hX1 hX2
  have hdays : List.map (fun d => d.day) [t1.date, t2.date, t3.date] =
      [15, 15, 15] := by
    simp [hd1, hd2, hd3]
  have hdet : TransactionAnalyzer.detect_recurrence
      [t1.date, t2.date, t3.date] = ("MONTHLY", some 15, none) := by
    simp only [TransactionAnalyzer.detect_recurrence, hsort,
      List.length_cons, List.length_nil, List.tail_cons, List.zip_cons_cons,
      List.zip_nil_right, List.map_cons, List.map_nil, List.sum_cons,
      List.sum_nil, List.isEmpty_cons, add_zero, Nat.reduceAdd,
      Nat.cast_ofNat, hdays]
    rw [if_neg (by omega), if_neg (by simp), if_neg hband.1,
      if_neg hband.2.1, if_pos hband.2.2]
    decide
  refine ⟨hdet, ?_⟩
  have hkE : (TransactionAnalyzer.normalize_description
      t1.description).isEmpty = false := by
    cases h : TransactionAnalyzer.normalize_description t1.description with
    | nil => exact absurd h hkne
    | cons a l => rfl
  have hgroups : TransactionAnalyzer.group_transactions [t1, t2, t3] =
      [(TransactionAnalyzer.normalize_description t1.description,
        [t1, t2, t3])] := by
    simp [TransactionAnalyzer.group_transactions,
      TransactionAnalyzer.addToGroup, hk2, hk3, hkne, hkE]
  intro c hc
  simp only [TransactionAnalyzer.analyze_with_rules, hgroups] at hc
  rw [mem_pySortBy] at hc
  simp only [List.filterMap_cons, List.filterMap_nil] at hc
  by_cases hcatE : (TransactionAnalyzer.categorize_by_keywords
      t1.description).isEmpty = true
  · simp [List.headD_cons, hcatE, ite_self] at hc
  · simp [List.headD_cons, hcatE, hdet] at hc
    subst hc
    refine ⟨rfl, rfl, ?_⟩
    simp only [lt_inf_iff]
    constructor <;> norm_num

-- C7 witness: Netflix on the 15th of January, February and March 2024.
theorem C7_witness :
    TransactionAnalyzer.detect_recurrence
      [⟨2024, 1, 15⟩, ⟨2024, 2, 15⟩, ⟨2024, 3, 15⟩] =
      ("MONTHLY", some 15, none) ∧
    ∀ c ∈ TransactionAnalyzer.analyze_with_rules
      [⟨⟨2024, 1, 15⟩, cl "Netflix", 1599 / 100, cl "NETFLIX.COM"⟩,
       ⟨⟨2024, 2, 15⟩, cl "Netflix", 1599 / 100, cl "NETFLIX.COM"⟩,
       ⟨⟨2024, 3, 15⟩, cl "Netflix", 1599 / 100, cl "NETFLIX.COM"⟩] "USD",
      c.recurrence = "MONTHLY" ∧ c.day_of_month = some 15 ∧
        (1 / 2 : ℚ) < c.confidence :=
  C7_three_consecutive_fifteenths
    ⟨⟨2024, 1, 15⟩, cl "Netflix", 1599 / 100, cl "NETFLIX.COM"⟩
    ⟨⟨2024, 2, 15⟩, cl "Netflix", 1599 / 100, cl "NETFLIX.COM"⟩
    ⟨⟨2024, 3, 15⟩, cl "Netflix", 1599 / 100, cl "NETFLIX.COM"⟩
    "USD" 2024 1 (by decide) (by decide) (by decide) (by decide)
    (by decide) (by decide) rfl rfl (by decide)

-- C9 witness: a concrete validated AI item satisfies the anchor invariant.
unseal Rat.add Rat.mul Rat.inv Rat.sub in
theorem C9_witness :
    TransactionAnalyzer.anchorInvariant
      (ClaudeService.ValidatedItem.mk [cl "NETFLIX.COM"] (cl "Netflix")
        "SUBSCRIPTION" "MONTHLY" (1599 / 100) (9 / 10) (some 15)
        none).recurrence
      (ClaudeService.ValidatedItem.mk [cl "NETFLIX.COM"] (cl "Netflix")
        "SUBSCRIPTION" "MONTHLY" (1599 / 100) (9 / 10) (some 15)
        none).day_of_month
      (ClaudeService.ValidatedItem.mk [cl "NETFLIX.COM"] (cl "Netflix")
        "SUBSCRIPTION" "MONTHLY" (1599 / 100) (9 / 10) (some 15)
        none).day_of_week :=
  C9_anchor_mutual_exclusion.2.1
    { suggested_name := some (cl "Netflix")
    , average_amount := some (cl "15.99")
    , category := some (cl "subscription")
    , recurrence := some (cl "monthly")
    , confidence := some (some (9 / 10))
    , day_of_month := some (some 15)
    , day_of_week := none
    , original_descriptions_str := none
    , original_descriptions_list := some [cl "NETFLIX.COM"] }
    _ (by decide)

/-- C8: whenever the minimum-text-length check passes and the layer-1
regex extractor finds at least one transaction, `parse_pdf` returns
exactly those layer-1 transactions sorted ascending by date (with the
single "Extracted n transactions" warning), and the result is
independent of the table-extraction and AI-extraction layers: layers 2
and 3 are never consulted. -/
theorem C8_layer1_short_circuits
    (full_text : List Char)
    (hlen : ¬ (pyStrip full_text).length < 50)
    (hl1 : PdfParser.extract_transactions_from_text_regex full_text ≠ []) :
    (∀ tables llm,
      PdfParser.parse_pdf full_text tables llm =
        .ok (pySortBy (fun a b => dateLt a.date b.date)
              (PdfParser.extract_transactions_from_text_regex full_text),
            [.extractedCount
              (PdfParser.extract_transactions_from_text_regex
                full_text).length])) ∧
    (∀ tables llm tables2 llm2,
      PdfParser.parse_pdf full_text tables llm =
        PdfParser.parse_pdf full_text tables2 llm2) := by
  have h1 : (PdfParser.extract_transactions_from_text_regex
      full_text).isEmpty = false := by
    cases hE : (PdfParser.extract_transactions_from_text_regex
        full_text).isEmpty
    · rfl
    · exact absurd (List.isEmpty_iff.mp hE) hl1
  have key : ∀ tables llm,
      PdfParser.parse_pdf full_text tables llm =
        .ok (pySortBy (fun a b => dateLt a.date b.date)
              (PdfParser.extract_transactions_from_text_regex full_text),
            [.extractedCount
              (PdfParser.extract_transactions_from_text_regex
                full_text).length]) := by
    intro tables llm
    simp only [PdfParser.parse_pdf, if_neg hlen, h1, Bool.not_false,
      if_true]
  exact ⟨key, fun t l t2 l2 => (key t l).trans (key t2 l2).symm⟩

-- C8 witness: a Bank-of-America style statement line is extracted by
-- layer 1; the table and LLM layers are ignored.
unseal Rat.add Rat.mul Rat.inv Rat.sub in
theorem C8_witness :
    PdfParser.parse_pdf
      (cl "Withdrawals and other subtractions\n10/15/25 NETFLIX.COM DES:PAYMENT -15.99")
      [] ([], []) =
      .ok ([⟨⟨2025, 10, 15⟩, cl "NETFLIX.COM", 1599 / 100,
        cl "NETFLIX.COM DES:PAYMENT"⟩],
        [.extractedCount 1]) := by
  have h := (C8_layer1_short_circuits
    (cl "Withdrawals and other subtractions\n10/15/25 NETFLIX.COM DES:PAYMENT -15.99")
    (by decide) (by decide)).1 [] ([], [])
  rw [h]
  decide

end PaymentTracker
